import Mathlib

/-!
Shallow embedding of the FaultMaven agent-service investigation core:
the hypothesis manager (`core/investigation/hypothesis_manager.py`), the
hierarchical memory manager (`core/investigation/memory_manager.py`) and
the milestone engine (`core/investigation/milestone_engine.py`).

Modelling conventions:
* Python floats are modelled as exact rationals (`ℚ`); the decimal
  constants of the source (0.15, 0.20, …) are exact in both readings and
  no claim depends on binary rounding.
* Wall-clock timestamps (`datetime.now()`) and logging calls are omitted:
  they carry no control flow.  Turn counters are kept.
* `uuid4()`-generated identifiers are supplied as explicit oracle inputs.
* External collaborators (the LLM provider, `fm_core_lib`'s
  `determine_investigation_path` and the derived `current_stage` property
  of the external progress model) appear as explicit oracle parameters;
  a raised exception of the LLM summarizer is the `none` outcome of its
  oracle.
* Python dictionaries preserving insertion order are modelled as
  association lists; Python string membership `pat in s.lower()` is
  modelled by `py_contains` below.
-/

/-- Python `max(0.0, min(1.0, q))`, the clamp used throughout the
hypothesis manager. -/
def clamp01 (q : ℚ) : ℚ := if q < 0 then 0 else if q > 1 then 1 else q

/-- Python `min(a, b)` (returns the first argument on ties). -/
def py_min (a b : ℚ) : ℚ := if b < a then b else a

/-- Python `max(a, b)` (returns the first argument on ties). -/
def py_max (a b : ℚ) : ℚ := if a < b then b else a

/-- Python `abs` on floats, as exact rationals. -/
def py_abs (q : ℚ) : ℚ := if q < 0 then -q else q

/-- ASCII lower-casing of one character, as Python `str.lower` does on the
ASCII inputs the engine's keyword checks work with. -/
def py_lower_char (c : Char) : Char :=
  if 65 ≤ c.toNat ∧ c.toNat ≤ 90 then Char.ofNat (c.toNat + 32) else c

/-- The character list of `s.lower()`. -/
def py_lower (s : String) : List Char := s.data.map py_lower_char

/-- Boolean list-prefix test (structural, kernel-reducible). -/
def chars_prefix_of : List Char → List Char → Bool
  | [], _ => true
  | _ :: _, [] => false
  | p :: ps, c :: cs => (p = c) && chars_prefix_of ps cs

/-- Boolean contiguous-sublist test. -/
def chars_infix_of (p : List Char) : List Char → Bool
  | [] => p.isEmpty
  | c :: cs => chars_prefix_of p (c :: cs) || chars_infix_of p cs

/-- Python `pat in s.lower()` for an already-lower-case pattern `pat`. -/
def py_contains (s pat : String) : Bool := chars_infix_of pat.data (py_lower s)

/-- Python truthiness of an `Optional[str]`: `None` and the empty string
are falsy. -/
def py_truthy : Option String → Bool
  | none => false
  | some s => !(s = "")

/-- Python `s[:n]` on strings. -/
def take_chars (s : String) (n : Nat) : String := String.mk (s.data.take n)

/-- Python `int(x)` on a float/rational: truncation toward zero. -/
def py_trunc (q : ℚ) : Int := q.num / (q.den : Int)

/-- Hypothesis lifecycle statuses.  The union of the statuses of the
monolith model (`faultmaven.models.investigation.HypothesisStatus`) and of
`fm_core_lib` (which adds `NEEDS_MORE_DATA`). -/
inductive HypothesisStatus
  | captured
  | active
  | validated
  | refuted
  | retired
  | superseded
  | needs_more_data
deriving DecidableEq

inductive HypothesisGenerationMode
  | opportunistic
  | systematic
  | forced_alternative
deriving DecidableEq

namespace HypothesisManager

/-- The hypothesis record of `faultmaven.models.investigation.Hypothesis`,
restricted to the fields the hypothesis manager reads or writes. -/
structure Hypothesis where
  hypothesis_id : String
  statement : String := ""
  category : String := ""
  status : HypothesisStatus := .active
  likelihood : ℚ := 0
  initial_likelihood : ℚ := 0
  confidence_trajectory : List (Nat × ℚ) := []
  supporting_evidence : List String := []
  refuting_evidence : List String := []
  iterations_without_progress : Nat := 0
  last_progress_at_turn : Nat := 0
  last_updated_turn : Nat := 0
  generation_mode : HypothesisGenerationMode := .systematic
  retirement_reason : Option String := none
deriving DecidableEq

/-- `HypothesisManager._check_status_transition`: only ACTIVE hypotheses
auto-transition; VALIDATED, then REFUTED, then RETIRED, first match wins
(the source's `if`/`elif` chain). -/
def check_status_transition (h : Hypothesis) : Hypothesis :=
  if h.status ≠ HypothesisStatus.active then h
  else
    let supporting_count := h.supporting_evidence.length
    let refuting_count := h.refuting_evidence.length
    if h.likelihood ≥ 70/100 ∧ supporting_count ≥ 2 then
      { h with status := .validated }
    else if h.likelihood ≤ 20/100 ∧ refuting_count ≥ 2 then
      { h with status := .refuted, retirement_reason := some "Refuted by evidence" }
    else if h.likelihood < 3/10 ∧ h.status ≠ HypothesisStatus.retired then
      { h with status := .retired,
               retirement_reason := some "Low confidence after testing" }
    else h

/-- `HypothesisManager.update_confidence_from_evidence`:
recompute confidence as
`clamp(initial_likelihood + 0.15·supporting − 0.20·refuting, 0, 1)`,
record the trajectory point, update the progress bookkeeping (a change of
at least 0.05 counts as progress) and re-run the status-transition
check. -/
def update_confidence_from_evidence (h : Hypothesis) (turn : Nat) : Hypothesis :=
  let supporting_count : ℚ := h.supporting_evidence.length
  let refuting_count : ℚ := h.refuting_evidence.length
  let new_confidence :=
    clamp01 (h.initial_likelihood + supporting_count * (15/100) - refuting_count * (20/100))
  let old_confidence := h.likelihood
  let h₁ : Hypothesis :=
    { h with likelihood := new_confidence,
             last_updated_turn := turn,
             confidence_trajectory := h.confidence_trajectory ++ [(turn, new_confidence)] }
  let h₂ : Hypothesis :=
    if py_abs (new_confidence - old_confidence) ≥ 5/100 then
      { h₁ with last_progress_at_turn := turn, iterations_without_progress := 0 }
    else
      { h₁ with iterations_without_progress := h₁.iterations_without_progress + 1 }
  check_status_transition h₂

/-- `HypothesisManager.link_evidence`: append the evidence id to the
relevant list only when it is not already present, then update the
confidence from the evidence counts. -/
def link_evidence (h : Hypothesis) (evidence_id : String) (supports : Bool)
    (turn : Nat) : Hypothesis :=
  let h₁ : Hypothesis :=
    if supports then
      if evidence_id ∈ h.supporting_evidence then h
      else { h with supporting_evidence := h.supporting_evidence ++ [evidence_id] }
    else
      if evidence_id ∈ h.refuting_evidence then h
      else { h with refuting_evidence := h.refuting_evidence ++ [evidence_id] }
  update_confidence_from_evidence h₁ turn

/-- `HypothesisManager.update_hypothesis_confidence` (the manual path used
when recording hypothesis tests).  Note the source compares the unclamped
`new_likelihood` with the old value for progress detection. -/
def update_hypothesis_confidence (h : Hypothesis) (new_likelihood : ℚ)
    (current_turn : Nat) : Hypothesis :=
  let old_likelihood := h.likelihood
  let clamped := clamp01 new_likelihood
  let h₁ : Hypothesis :=
    { h with likelihood := clamped,
             last_updated_turn := current_turn,
             confidence_trajectory := h.confidence_trajectory ++ [(current_turn, clamped)] }
  let h₂ : Hypothesis :=
    if py_abs (new_likelihood - old_likelihood) ≥ 5/100 then
      { h₁ with last_progress_at_turn := current_turn, iterations_without_progress := 0 }
    else
      { h₁ with iterations_without_progress := h₁.iterations_without_progress + 1 }
  check_status_transition h₂

/-- `HypothesisManager.create_hypothesis` (the generated uuid is the
`hypothesis_id` oracle argument; the phase bookkeeping fields the claims
never touch are omitted). -/
def create_hypothesis (hypothesis_id statement category : String)
    (initial_likelihood : ℚ) (current_turn : Nat)
    (generation_mode : HypothesisGenerationMode) (status : HypothesisStatus) :
    Hypothesis :=
  { hypothesis_id := hypothesis_id
    statement := statement
    category := category
    status := status
    likelihood := initial_likelihood
    initial_likelihood := initial_likelihood
    confidence_trajectory := [(current_turn, initial_likelihood)]
    supporting_evidence := []
    refuting_evidence := []
    iterations_without_progress := 0
    last_progress_at_turn := current_turn
    last_updated_turn := current_turn
    generation_mode := generation_mode
    retirement_reason := none }

/-- The `HypothesisTest` record produced by `record_hypothesis_test`. -/
structure HypothesisTest where
  hypothesis_id : String
  test_description : String
  evidence_required : List String
  evidence_obtained : List String
  result : String
  confidence_change : ℚ
  executed_at_turn : Nat
  ooda_iteration : Nat
deriving DecidableEq

/-- `HypothesisManager.record_hypothesis_test`: on `"supports"` the
likelihood target moves up by `abs(confidence_change)` (capped at 1) and
the obtained evidence ids are appended — without any duplicate check — to
`supporting_evidence`; symmetrically for `"refutes"`; `"inconclusive"`
leaves both alone.  The manual confidence-update path then runs. -/
def record_hypothesis_test (h : Hypothesis) (test_description : String)
    (evidence_required evidence_obtained : List String) (result : String)
    (confidence_change : ℚ) (current_turn ooda_iteration : Nat) :
    Hypothesis × HypothesisTest :=
  let test : HypothesisTest :=
    { hypothesis_id := h.hypothesis_id
      test_description := test_description
      evidence_required := evidence_required
      evidence_obtained := evidence_obtained
      result := result
      confidence_change := confidence_change
      executed_at_turn := current_turn
      ooda_iteration := ooda_iteration }
  let (new_likelihood, h₁) :=
    if result = "supports" then
      (py_min 1 (h.likelihood + py_abs confidence_change),
       { h with supporting_evidence := h.supporting_evidence ++ evidence_obtained })
    else if result = "refutes" then
      (py_max 0 (h.likelihood - py_abs confidence_change),
       { h with refuting_evidence := h.refuting_evidence ++ evidence_obtained })
    else
      (h.likelihood, h)
  (update_hypothesis_confidence h₁ new_likelihood current_turn, test)

/-- The non-retired, non-refuted hypotheses `detect_anchoring` and
`force_alternative_generation` work over. -/
def active_of (hypotheses : List Hypothesis) : List Hypothesis :=
  hypotheses.filter fun h =>
    h.status ≠ HypothesisStatus.retired ∧ h.status ≠ HypothesisStatus.refuted

/-- One step of the `category_counts` dict build of `detect_anchoring`:
append the id to the category's bucket, creating the bucket at the end on
first occurrence (Python dicts preserve insertion order). -/
def add_to_group (gs : List (String × List String)) (c id : String) :
    List (String × List String) :=
  match gs with
  | [] => [(c, [id])]
  | (c₀, ids₀) :: rest =>
      if c₀ = c then (c₀, ids₀ ++ [id]) :: rest
      else (c₀, ids₀) :: add_to_group rest c id

/-- The `category_counts : Dict[str, List[str]]` of `detect_anchoring`,
as an insertion-ordered association list. -/
def category_groups (hs : List Hypothesis) : List (String × List String) :=
  hs.foldl (fun gs h => add_to_group gs h.category h.hypothesis_id) []

/-- The element Python's stable descending sort by likelihood puts first:
the earliest hypothesis of maximal likelihood (a strictly greater
likelihood displaces the current best). -/
def top_by_likelihood (h₀ : Hypothesis) (hs : List Hypothesis) : Hypothesis :=
  hs.foldl (fun best h => if best.likelihood < h.likelihood then h else best) h₀

/-- The structured content of the reason strings `detect_anchoring`
formats; the source renders these into log/display text, which no caller
inspects structurally. -/
inductive AnchoringReason
  | category_concentration (category : String) (count : Nat)
  | stalled_hypotheses (count : Nat)
  | top_hypothesis_stagnant (iterations : Nat) (likelihood : ℚ)
deriving DecidableEq

/-- `HypothesisManager.detect_anchoring`: over non-retired/non-refuted
hypotheses, in order and returning on first match: (1) some category holds
at least 4 of them; (2) at least 2 are stalled for 3+ iterations; (3) the
top-likelihood one is stalled 3+ iterations below 0.70 likelihood. -/
def detect_anchoring (hypotheses : List Hypothesis) (_current_iteration : Nat) :
    Bool × Option AnchoringReason × List String :=
  let active_hypotheses := active_of hypotheses
  if active_hypotheses = [] then (false, none, [])
  else
    let groups := category_groups active_hypotheses
    match groups.find? (fun g => 4 ≤ g.2.length) with
    | some (category, hypothesis_ids) =>
        (true, some (.category_concentration category hypothesis_ids.length),
         hypothesis_ids)
    | none =>
      let stalled_hypotheses :=
        (active_hypotheses.filter fun h => 3 ≤ h.iterations_without_progress).map
          (·.hypothesis_id)
      if 2 ≤ stalled_hypotheses.length then
        (true, some (.stalled_hypotheses stalled_hypotheses.length),
         stalled_hypotheses)
      else
        match active_hypotheses with
        | [] => (false, none, [])
        | h₀ :: rest =>
          let top_hypothesis := top_by_likelihood h₀ rest
          let iterations_stagnant := top_hypothesis.iterations_without_progress
          if 3 ≤ iterations_stagnant ∧ top_hypothesis.likelihood < 7/10 then
            (true,
             some (.top_hypothesis_stagnant iterations_stagnant
                     top_hypothesis.likelihood),
             [top_hypothesis.hypothesis_id])
          else (false, none, [])

/-- One step of the `category_counts : Dict[str, int]` build of
`force_alternative_generation`. -/
def add_count (cs : List (String × Nat)) (c : String) : List (String × Nat) :=
  match cs with
  | [] => [(c, 1)]
  | (c₀, n₀) :: rest =>
      if c₀ = c then (c₀, n₀ + 1) :: rest
      else (c₀, n₀) :: add_count rest c

/-- The per-category counts of non-retired/non-refuted hypotheses, in
insertion order. -/
def category_counts (hs : List Hypothesis) : List (String × Nat) :=
  (active_of hs).foldl (fun cs h => add_count cs h.category) []

/-- Python `max(category_counts, key=category_counts.get)`: the first key
of maximal count (a strictly greater count displaces the current best). -/
def max_count_key (c₀ : String × Nat) (cs : List (String × Nat)) : String :=
  (cs.foldl (fun best c => if best.2 < c.2 then c else best) c₀).1

/-- The dictionary `force_alternative_generation` returns (the
`constraints` sub-dict inlined). -/
structure GenerationConstraints where
  retired_count : Nat
  dominant_category : String
  exclude_categories : List String
  require_diverse_categories : Bool
  min_new_hypotheses : Nat
deriving DecidableEq

/-- The retirement predicate of `force_alternative_generation`'s loop. -/
def fag_retires (dominant_category : String) (h : Hypothesis) : Bool :=
  h.category = dominant_category ∧ 2 ≤ h.iterations_without_progress ∧
    h.status = HypothesisStatus.active

/-- The retirement reason `force_alternative_generation` records. -/
def fag_retirement_reason (dominant_category : String) : String :=
  "Anchoring prevention: retired to diversify from " ++ dominant_category

/-- `HypothesisManager.force_alternative_generation`.  When every
hypothesis is RETIRED or REFUTED the category-count dict is empty and the
source's `max(...)` raises `ValueError`; that outcome is `none` here.
Otherwise the dominant category's stagnant ACTIVE hypotheses are retired
and the generation constraints are returned. -/
def force_alternative_generation (existing_hypotheses : List Hypothesis)
    (current_turn : Nat) : Option (List Hypothesis × GenerationConstraints) :=
  match category_counts existing_hypotheses with
  | [] => none
  | c₀ :: rest =>
    let dominant_category := max_count_key c₀ rest
    let updated := existing_hypotheses.map fun h =>
      if fag_retires dominant_category h then
        { h with status := .retired,
                 retirement_reason := some (fag_retirement_reason dominant_category),
                 last_updated_turn := current_turn }
      else h
    let retired_count :=
      (existing_hypotheses.filter (fag_retires dominant_category)).length
    some (updated,
      { retired_count := retired_count
        dominant_category := dominant_category
        exclude_categories := [dominant_category]
        require_diverse_categories := true
        min_new_hypotheses := 2 })

end HypothesisManager

namespace MemoryManager

/-- The `OODAIteration` fields the memory manager reads. -/
structure OODAIteration where
  iteration_number : Nat
  new_insights : List String := []
  confidence_delta : ℚ := 0
  new_evidence_collected : Nat := 0
  steps_completed : List String := []
  made_progress : Bool := false
deriving DecidableEq, Inhabited

/-- The `MemorySnapshot` record. -/
structure MemorySnapshot where
  iteration_range : Nat × Nat
  summary : String
  key_facts : List String
  confidence_changes : List (String × ℚ)
  evidence_collected : List String
  decisions_made : List String
deriving DecidableEq, Inhabited

/-- Tier sizes of `HierarchicalMemoryManager`. -/
def HOT_TIER_SIZE : Nat := 2

def WARM_TIER_SIZE : Nat := 3

def COLD_TIER_SIZE : Nat := 5

/-- The four tiers of `HierarchicalMemory` (the monolith model the manager
mutates); default-constructed empty as `HierarchicalMemory()`. -/
structure HierarchicalMemory where
  hot_memory : List OODAIteration := []
  warm_snapshots : List MemorySnapshot := []
  cold_snapshots : List MemorySnapshot := []
  persistent_insights : List String := []
  last_compression_turn : Nat := 0
deriving DecidableEq, Inhabited

/-- The `key_facts` accumulation of `compress_iterations`' extraction
loop (the source gathers all four extractions in one pass; they are split
here, one fold per output, value for value). -/
def extract_key_facts (iterations : List OODAIteration) : List String :=
  iterations.foldl (fun acc i => acc ++ i.new_insights) []

/-- The decision line `f"Iter {n}: {k} steps completed"`. -/
def decision_line (i : OODAIteration) : String :=
  "Iter " ++ toString i.iteration_number ++ ": " ++
    toString i.steps_completed.length ++ " steps completed"

/-- The `decisions` accumulation of the extraction loop. -/
def extract_decisions (iterations : List OODAIteration) : List String :=
  iterations.foldl
    (fun acc i => if i.steps_completed ≠ [] then acc ++ [decision_line i] else acc) []

/-- The `confidence_changes` accumulation of the extraction loop. -/
def extract_confidence_changes (iterations : List OODAIteration) :
    List (String × ℚ) :=
  iterations.foldl
    (fun acc i =>
      if i.confidence_delta ≠ 0 then
        acc ++ [("iter_" ++ toString i.iteration_number, i.confidence_delta)]
      else acc) []

/-- The `evidence_ids` accumulation of the extraction loop. -/
def extract_evidence_ids (iterations : List OODAIteration) : List String :=
  iterations.foldl
    (fun acc i =>
      if 0 < i.new_evidence_collected then
        acc ++ ["evidence_in_iter_" ++ toString i.iteration_number]
      else acc) []

/-- `MemoryCompressionEngine._generate_simple_summary`: the deterministic
fallback — the progress sentence, then the top 3 key facts and the top 2
decisions when present, joined by single spaces. -/
def generate_simple_summary (iterations : List OODAIteration)
    (key_facts decisions : List String) : String :=
  let progress_count := (iterations.filter (·.made_progress)).length
  let head_sentence :=
    "Iterations " ++ toString (iterations.headD default).iteration_number ++ "-" ++
      toString (iterations.getLastD default).iteration_number ++ ": " ++
      toString progress_count ++ "/" ++ toString iterations.length ++
      " made progress."
  let parts := [head_sentence]
  let parts :=
    if key_facts ≠ [] then
      parts ++ ["Key findings: " ++ String.intercalate "; " (key_facts.take 3)]
    else parts
  let parts :=
    if decisions ≠ [] then
      parts ++ ["Actions: " ++ String.intercalate "; " (decisions.take 2)]
    else parts
  String.intercalate " " parts

/-- `MemoryCompressionEngine._generate_llm_summary` with the provider
call's outcome as an oracle: `some text` is a successful `generate`
(stripped as in the source), `none` is a raised exception caught by the
`except` clause and replaced with the fallback summary. -/
def generate_llm_summary (outcome : Option String)
    (iterations : List OODAIteration) (key_facts decisions : List String) : String :=
  match outcome with
  | some response => response.trim
  | none => generate_simple_summary iterations key_facts decisions

/-- `MemoryCompressionEngine.compress_iterations` with the summarizer as
an oracle: `none` means no LLM provider was injected, `some outcome` is an
injected provider whose `generate` call's result is `outcome` as in
`generate_llm_summary`.  The source raises `ValueError` on an empty
iteration list; its only caller guards against that, and the defaulted
head/last fields below are never reached. -/
def compress_iterations (iterations : List OODAIteration)
    (summarizer : Option (Option String)) (_target_tokens : Nat) : MemorySnapshot :=
  let key_facts := extract_key_facts iterations
  let decisions := extract_decisions iterations
  let summary :=
    match summarizer with
    | some outcome => generate_llm_summary outcome iterations key_facts decisions
    | none => generate_simple_summary iterations key_facts decisions
  { iteration_range := ((iterations.headD default).iteration_number,
                        (iterations.getLastD default).iteration_number)
    summary := summary
    key_facts := key_facts.take 5
    confidence_changes := extract_confidence_changes iterations
    evidence_collected := extract_evidence_ids iterations
    decisions_made := decisions }

/-- The warm-tier target token count `_promote_to_warm` passes
(`warm_memory_tokens // WARM_TIER_SIZE` with the default settings). -/
def warm_target_tokens : Nat := 300 / WARM_TIER_SIZE

/-- `HierarchicalMemoryManager._promote_to_warm`: compress the oldest
overflow of the hot tier into one snapshot appended to the warm tier. -/
def promote_to_warm (memory : HierarchicalMemory)
    (summarizer : Option (Option String)) : HierarchicalMemory :=
  if memory.hot_memory.length ≤ HOT_TIER_SIZE then memory
  else
    let overflow_count := memory.hot_memory.length - HOT_TIER_SIZE
    let iterations_to_compress := memory.hot_memory.take overflow_count
    let snapshot := compress_iterations iterations_to_compress summarizer
      warm_target_tokens
    { memory with
        warm_snapshots := memory.warm_snapshots ++ [snapshot]
        hot_memory := memory.hot_memory.drop overflow_count }

/-- `HierarchicalMemoryManager._demote_to_cold`: truncate the overflow's
summaries to 100 characters, keep the top 3 key facts and top 2 decisions,
drop the evidence list, and move them to the cold tier. -/
def demote_to_cold (memory : HierarchicalMemory) : HierarchicalMemory :=
  if memory.warm_snapshots.length ≤ WARM_TIER_SIZE then memory
  else
    let overflow_count := memory.warm_snapshots.length - WARM_TIER_SIZE
    let snapshots_to_demote := memory.warm_snapshots.take overflow_count
    let cold_new := snapshots_to_demote.map fun snapshot =>
      { iteration_range := snapshot.iteration_range
        summary := take_chars snapshot.summary 100
        key_facts := snapshot.key_facts.take 3
        confidence_changes := snapshot.confidence_changes
        evidence_collected := []
        decisions_made := snapshot.decisions_made.take 2 : MemorySnapshot }
    { memory with
        cold_snapshots := memory.cold_snapshots ++ cold_new
        warm_snapshots := memory.warm_snapshots.drop overflow_count }

/-- `HierarchicalMemoryManager._prune_cold_memory`: drop the oldest cold
overflow entries. -/
def prune_cold_memory (memory : HierarchicalMemory) : HierarchicalMemory :=
  if memory.cold_snapshots.length ≤ COLD_TIER_SIZE then memory
  else
    let overflow_count := memory.cold_snapshots.length - COLD_TIER_SIZE
    { memory with cold_snapshots := memory.cold_snapshots.drop overflow_count }

/-- `HierarchicalMemoryManager._compress_memory`: promote, demote, prune,
each conditional on its tier's overflow. -/
def compress_memory (memory : HierarchicalMemory)
    (summarizer : Option (Option String)) : HierarchicalMemory :=
  let memory :=
    if HOT_TIER_SIZE < memory.hot_memory.length then promote_to_warm memory summarizer
    else memory
  let memory :=
    if WARM_TIER_SIZE < memory.warm_snapshots.length then demote_to_cold memory
    else memory
  if COLD_TIER_SIZE < memory.cold_snapshots.length then prune_cold_memory memory
  else memory

/-- `HierarchicalMemoryManager.update_memory`.  `should_compress` is the
outcome of the external model's `memory.should_compress(current_turn)`
predicate (the periodic compression trigger, supplied by the monolith
model outside this repository).  Independent of it, a hot-tier overflow is
promoted to warm. -/
def update_memory (memory : HierarchicalMemory) (new_iteration : OODAIteration)
    (current_turn : Nat) (should_compress : Bool)
    (summarizer : Option (Option String)) : HierarchicalMemory :=
  let memory := { memory with hot_memory := memory.hot_memory ++ [new_iteration] }
  let memory :=
    if should_compress then
      { compress_memory memory summarizer with last_compression_turn := current_turn }
    else memory
  if HOT_TIER_SIZE < memory.hot_memory.length then promote_to_warm memory summarizer
  else memory

end MemoryManager

namespace MilestoneEngine

inductive CaseStatus
  | consulting
  | investigating
  | resolved
  | closed
deriving DecidableEq

/-- The two `InvestigationStage` values the engine's degraded-mode
recovery inspects, plus a catch-all for the remaining stages of the
external enum. -/
inductive InvestigationStage
  | problem_verification
  | investigation
  | other_stage
deriving DecidableEq

inductive DegradedModeType
  | no_progress
  | insufficient_data
  | circular_reasoning
  | stalled_verification
deriving DecidableEq

inductive TurnOutcome
  | conversation
  | data_provided
  | milestone_completed
deriving DecidableEq

inductive EvidenceCategory
  | symptom_evidence
  | resolution_evidence
  | causal_evidence
deriving DecidableEq, Inhabited

inductive EvidenceStance
  | supporting
  | contradicting
deriving DecidableEq

/-- The eight milestone flags plus the derived/bookkeeping fields of
`fm_core_lib`'s `InvestigationProgress` that the engine touches; a fresh
`InvestigationProgress()` is `{ }` (all flags false). -/
structure InvestigationProgress where
  symptom_verified : Bool := false
  scope_assessed : Bool := false
  timeline_established : Bool := false
  changes_identified : Bool := false
  root_cause_identified : Bool := false
  solution_proposed : Bool := false
  solution_applied : Bool := false
  solution_verified : Bool := false
  root_cause_confidence : ℚ := 0
  root_cause_method : Option String := none
  verification_complete : Bool := false
  completed_milestones : List String := []
deriving DecidableEq

structure ConsultingData where
  proposed_problem_statement : Option String := none
  problem_statement_confirmed : Bool := false
  decided_to_investigate : Bool := false
deriving DecidableEq

structure ProblemVerification where
  symptom_statement : String := ""
  symptom_verified : Bool := false
  verification_method : Option String := none
  scope_statement : Option String := none
  timeline_first_occurrence : Option String := none
  timeline_last_occurrence : Option String := none
  root_cause_statement : Option String := none
  verification_complete : Bool := false
  temporal_state : Option String := none
  urgency_level : Option String := none
deriving DecidableEq

/-- The result of the external `determine_investigation_path`. -/
structure PathSelection where
  path : String
  auto_selected : Bool
  rationale : String
deriving DecidableEq

structure DegradedMode where
  mode_type : DegradedModeType
  reason : String
  attempted_actions : List String := []
deriving DecidableEq

structure HypothesisEvidenceLink where
  hypothesis_id : String
  evidence_id : Option String := none
  stance : EvidenceStance
  relevance : ℚ
deriving DecidableEq

/-- `fm_core_lib`'s `Hypothesis`, restricted to the fields the milestone
engine reads or writes.  `created_at` is a creation-order stamp standing
in for the wall-clock `datetime` the anchoring-bias sort keys on. -/
structure Hypothesis where
  hypothesis_id : String
  statement : String := ""
  category : String := ""
  likelihood : ℚ := 0
  status : HypothesisStatus := .active
  generation_mode : HypothesisGenerationMode := .systematic
  generated_reasoning : String := ""
  testable_predictions : List String := []
  evidence_links : List HypothesisEvidenceLink := []
  created_at : Nat := 0
  created_at_turn : Nat := 0
deriving DecidableEq

structure Evidence where
  evidence_id : String
  summary : String := ""
  preprocessed_content : String := ""
  content_ref : String := ""
  content_size_bytes : Nat := 0
  preprocessing_method : String := ""
  category : EvidenceCategory := .causal_evidence
  advances_milestones : List String := []
  hypothesis_links : List HypothesisEvidenceLink := []
  collected_by : String := ""
  collected_at_turn : Nat := 0
deriving DecidableEq, Inhabited

structure UploadedFile where
  file_id : String
  filename : String
  size_bytes : Nat
  data_type : String
  uploaded_at_turn : Nat
  source_type : String
  preprocessing_summary : Option String
  content_ref : String
deriving DecidableEq

structure Solution where
  solution_id : String
  title : String
  description : String
  solution_type : String
  implementation_steps : List String
  estimated_effort : String
  risk_level : String
  confidence_level : Int
deriving DecidableEq

structure TurnProgress where
  turn_number : Nat
  milestones_completed : List String
  evidence_added : List String
  hypotheses_generated : List String
  hypotheses_validated : List String
  solutions_proposed : List String
  progress_made : Bool
  actions_taken : List String
  outcome : TurnOutcome
  user_message_summary : String
  agent_response_summary : String
deriving DecidableEq

/-- The `Case` aggregate, restricted to the fields the engine reads or
writes (timestamps omitted). -/
structure Case where
  case_id : String := ""
  user_id : String := ""
  title : String := ""
  description : String := ""
  status : CaseStatus := .consulting
  current_turn : Nat := 0
  turns_without_progress : Nat := 0
  consulting : ConsultingData := {}
  progress : InvestigationProgress := {}
  problem_verification : ProblemVerification := {}
  path_selection : Option PathSelection := none
  degraded_mode : Option DegradedMode := none
  turn_history : List TurnProgress := []
  uploaded_files : List UploadedFile := []
  evidence : List Evidence := []
  hypotheses : List (String × Hypothesis) := []
  solutions : List Solution := []
  closure_reason : Option String := none
deriving DecidableEq

/-- An attachment mapping from the API layer: the optional keys the
engine reads, plus the uuid-generated identifiers as oracle fields. -/
structure Attachment where
  file_id : Option String := none
  filename : Option String := none
  size : Nat := 0
  data_type : Option String := none
  source_type : Option String := none
  summary : Option String := none
  s3_uri : Option String := none
  gen_file_id : String := ""
  gen_evidence_id : String := ""
deriving DecidableEq

/-- External collaborators: `fm_core_lib.models.case.determine_investigation_path`
and the derived `current_stage` property of the external progress model,
both outside this repository. -/
structure Deps where
  determine_path : ProblemVerification → PathSelection
  current_stage : InvestigationProgress → InvestigationStage

/-- `MilestoneEngine._create_uploaded_file_from_attachment` (the unused
`case` parameter of the source is dropped): sentinel defaults for missing
attachment fields. -/
def create_uploaded_file_from_attachment (attachment : Attachment)
    (turn_number : Nat) : UploadedFile :=
  { file_id := attachment.file_id.getD ("file_" ++ attachment.gen_file_id)
    filename := attachment.filename.getD "unknown"
    size_bytes := attachment.size
    data_type := attachment.data_type.getD "unknown"
    uploaded_at_turn := turn_number
    source_type := attachment.source_type.getD "file_upload"
    preprocessing_summary := attachment.summary
    content_ref := attachment.s3_uri.getD (attachment.file_id.getD "unknown") }

/-- `MilestoneEngine._infer_evidence_category`: SYMPTOM while verification
is incomplete, RESOLUTION once a solution is proposed, else CAUSAL. -/
def infer_evidence_category (case : Case) : EvidenceCategory :=
  if !case.progress.verification_complete then .symptom_evidence
  else if case.progress.solution_proposed then .resolution_evidence
  else .causal_evidence

/-- `MilestoneEngine._create_evidence_from_attachment`. -/
def create_evidence_from_attachment (case : Case) (attachment : Attachment)
    (turn_number : Nat) : Evidence :=
  { evidence_id := "ev_" ++ attachment.gen_evidence_id
    summary := "Uploaded file: " ++ attachment.filename.getD "unknown"
    preprocessed_content := "[Content to be preprocessed]"
    content_ref := attachment.s3_uri.getD "unknown"
    content_size_bytes := attachment.size
    preprocessing_method := "pending"
    category := infer_evidence_category case
    advances_milestones := []
    hypothesis_links := []
    collected_by := case.user_id
    collected_at_turn := turn_number }

/-- One `milestone` entry of the `update_milestones` tool-call arguments;
`gen_solution_id` is the uuid oracle for a created solution. -/
structure MilestoneDetails where
  symptom_statement : Option String := none
  verification_method : Option String := none
  scope_statement : Option String := none
  first_occurrence : Option String := none
  last_occurrence : Option String := none
  method : Option String := none
  root_cause_statement : Option String := none
  solution_description : Option String := none
  solution_title : Option String := none
  solution_type : Option String := none
  steps : List String := []
  estimated_effort : Option String := none
  risk_level : Option String := none
deriving DecidableEq

structure MilestoneUpdate where
  milestone : String
  completed : Bool := false
  confidence : ℚ := 0
  evidence : String := ""
  details : MilestoneDetails := {}
  gen_solution_id : String := ""
deriving DecidableEq

/-- The `symptom_verified` arm of `_process_milestone_updates`' loop
body. -/
def amu_symptom_verified (case : Case) (u : MilestoneUpdate) :
    Case × Option String :=
  if !case.progress.symptom_verified then
    ({ case with
         progress := { case.progress with symptom_verified := true }
         problem_verification := { case.problem_verification with
           symptom_verified := true
           symptom_statement := u.details.symptom_statement.getD case.description
           verification_method :=
             some (u.details.verification_method.getD "user_report") } },
     some u.milestone)
  else (case, none)

/-- The `scope_assessed` arm of `_process_milestone_updates`' loop
body. -/
def amu_scope_assessed (case : Case) (u : MilestoneUpdate) :
    Case × Option String :=
  if !case.progress.scope_assessed then
    ({ case with
         progress := { case.progress with scope_assessed := true }
         problem_verification := { case.problem_verification with
           scope_statement := some (u.details.scope_statement.getD u.evidence) } },
     some u.milestone)
  else (case, none)

/-- The `timeline_established` arm of `_process_milestone_updates`' loop
body. -/
def amu_timeline_established (case : Case) (u : MilestoneUpdate) :
    Case × Option String :=
  if !case.progress.timeline_established then
    ({ case with
         progress := { case.progress with timeline_established := true }
         problem_verification := { case.problem_verification with
           timeline_first_occurrence :=
             match u.details.first_occurrence with
             | some v => some v
             | none => case.problem_verification.timeline_first_occurrence
           timeline_last_occurrence :=
             match u.details.last_occurrence with
             | some v => some v
             | none => case.problem_verification.timeline_last_occurrence } },
     some u.milestone)
  else (case, none)

/-- The `changes_identified` arm of `_process_milestone_updates`' loop
body. -/
def amu_changes_identified (case : Case) (u : MilestoneUpdate) :
    Case × Option String :=
  if !case.progress.changes_identified then
    ({ case with progress := { case.progress with changes_identified := true } },
     some u.milestone)
  else (case, none)

/-- The `root_cause_identified` arm of `_process_milestone_updates`' loop
body. -/
def amu_root_cause_identified (case : Case) (u : MilestoneUpdate) :
    Case × Option String :=
  if !case.progress.root_cause_identified then
    ({ case with
         progress := { case.progress with
           root_cause_identified := true
           root_cause_confidence := u.confidence
           root_cause_method := some (u.details.method.getD "structured_analysis") }
         problem_verification := { case.problem_verification with
           root_cause_statement :=
             some (u.details.root_cause_statement.getD u.evidence) } },
     some u.milestone)
  else (case, none)

/-- The `solution_proposed` arm of `_process_milestone_updates`' loop
body: besides the flag, a structured solution record may be appended. -/
def amu_solution_proposed (case : Case) (u : MilestoneUpdate) :
    Case × Option String :=
  if !case.progress.solution_proposed then
    let case := { case with
      progress := { case.progress with solution_proposed := true } }
    let case :=
      match u.details.solution_description with
      | some description =>
          { case with solutions := case.solutions ++
              [{ solution_id := "sol_" ++ u.gen_solution_id
                 title := u.details.solution_title.getD "Proposed Solution"
                 description := description
                 solution_type := u.details.solution_type.getD "MITIGATION"
                 implementation_steps := u.details.steps
                 estimated_effort := u.details.estimated_effort.getD "unknown"
                 risk_level := u.details.risk_level.getD "medium"
                 confidence_level := Int.fdiv (py_trunc (u.confidence * 100)) 20 }] }
      | none => case
    (case, some u.milestone)
  else (case, none)

/-- The `solution_applied` arm of `_process_milestone_updates`' loop
body. -/
def amu_solution_applied (case : Case) (u : MilestoneUpdate) :
    Case × Option String :=
  if !case.progress.solution_applied then
    ({ case with progress := { case.progress with solution_applied := true } },
     some u.milestone)
  else (case, none)

/-- The `solution_verified` arm of `_process_milestone_updates`' loop
body. -/
def amu_solution_verified (case : Case) (u : MilestoneUpdate) :
    Case × Option String :=
  if !case.progress.solution_verified then
    ({ case with progress := { case.progress with solution_verified := true } },
     some u.milestone)
  else (case, none)

/-- One iteration of `_process_milestone_updates`' loop body: apply a
single milestone update, returning the updated case and the milestone name
when it newly completed.  Every flag assignment is guarded by the flag
being false. -/
def apply_milestone_update (case : Case) (u : MilestoneUpdate) :
    Case × Option String :=
  if !u.completed then (case, none)
  else if u.milestone = "symptom_verified" then amu_symptom_verified case u
  else if u.milestone = "scope_assessed" then amu_scope_assessed case u
  else if u.milestone = "timeline_established" then amu_timeline_established case u
  else if u.milestone = "changes_identified" then amu_changes_identified case u
  else if u.milestone = "root_cause_identified" then amu_root_cause_identified case u
  else if u.milestone = "solution_proposed" then amu_solution_proposed case u
  else if u.milestone = "solution_applied" then amu_solution_applied case u
  else if u.milestone = "solution_verified" then amu_solution_verified case u
  else (case, none)

/-- One step of `_process_milestone_updates`' loop on the (case,
completed-names) accumulator. -/
def milestone_fold_step (acc : Case × List String) (u : MilestoneUpdate) :
    Case × List String :=
  let cr := apply_milestone_update acc.1 u
  (cr.1, match cr.2 with | some m => acc.2 ++ [m] | none => acc.2)

/-- `MilestoneEngine._process_milestone_updates`: fold the update entries,
extend `completed_milestones` without duplicates, then derive
`verification_complete` from the first four flags (invoking the external
path selection when its gate holds). -/
def process_milestone_updates (deps : Deps) (case : Case)
    (milestone_updates : List MilestoneUpdate) : Case × List String :=
  let cm := milestone_updates.foldl milestone_fold_step (case, [])
  let case := cm.1
  let milestones_completed := cm.2
  let case := { case with
    progress := { case.progress with completed_milestones :=
      (milestones_completed.foldl
        (fun l m => if m ∈ l then l else l ++ [m])
        case.progress.completed_milestones) } }
  let case :=
    if case.progress.symptom_verified ∧ case.progress.scope_assessed ∧
        case.progress.timeline_established ∧ case.progress.changes_identified then
      let case := { case with
        progress := { case.progress with verification_complete := true }
        problem_verification :=
          { case.problem_verification with verification_complete := true } }
      if case.problem_verification.temporal_state.isSome ∧
          case.problem_verification.urgency_level.isSome ∧
          case.path_selection = none then
        { case with
            path_selection := some (deps.determine_path case.problem_verification) }
      else case
    else case
  (case, milestones_completed)

structure EvidenceAnalysisArgs where
  evidence_id : Option String := none
  category : EvidenceCategory := .causal_evidence
  confidence : ℚ := 0
  key_findings : List String := []
  advances_milestones : List String := []
  supports_hypotheses : List String := []
deriving DecidableEq

/-- `MilestoneEngine._process_evidence_analysis`: re-categorize an
existing evidence record and add supporting hypothesis links for ids not
already linked. -/
def process_evidence_analysis (case : Case) (args : EvidenceAnalysisArgs) :
    Case × Option String :=
  match case.evidence.findIdx? (fun ev => some ev.evidence_id = args.evidence_id) with
  | none => (case, none)
  | some idx =>
    let ev := case.evidence.getD idx default
    let links := args.supports_hypotheses.foldl
      (fun links hyp_id =>
        if hyp_id ∈ links.map (·.hypothesis_id) then links
        else links ++ [{ hypothesis_id := hyp_id
                         stance := .supporting
                         relevance := args.confidence : HypothesisEvidenceLink }])
      ev.hypothesis_links
    let ev := { ev with category := args.category
                        advances_milestones := args.advances_milestones
                        hypothesis_links := links }
    ({ case with evidence := case.evidence.set idx ev }, args.evidence_id)

/-- Python dict assignment `case.hypotheses[key] = value` on an
insertion-ordered mapping. -/
def dict_insert (d : List (String × Hypothesis)) (key : String) (value : Hypothesis) :
    List (String × Hypothesis) :=
  if key ∈ d.map (·.1) then
    d.map (fun p => if p.1 = key then (key, value) else p)
  else d ++ [(key, value)]

structure HypothesisGenerationArgs where
  statement : Option String := none
  category : String := "UNKNOWN"
  likelihood : ℚ := 1/2
  reasoning : String := ""
  required_evidence : List String := []
  testable_predictions : List String := []
  gen_hypothesis_id : String := ""
  created_at : Nat := 0
deriving DecidableEq

/-- `MilestoneEngine._process_hypothesis_generation`: create a new ACTIVE
hypothesis unless the statement is missing/empty. -/
def process_hypothesis_generation (case : Case) (args : HypothesisGenerationArgs) :
    Case × Option String :=
  if !py_truthy args.statement then (case, none)
  else
    let hypothesis_id := "hyp_" ++ args.gen_hypothesis_id
    let hypothesis : Hypothesis :=
      { hypothesis_id := hypothesis_id
        statement := args.statement.getD ""
        category := args.category
        likelihood := args.likelihood
        status := .active
        generation_mode := .systematic
        generated_reasoning := args.reasoning
        testable_predictions := args.testable_predictions
        evidence_links := []
        created_at := args.created_at
        created_at_turn := case.current_turn + 1 }
    ({ case with hypotheses := dict_insert case.hypotheses hypothesis_id hypothesis },
     some hypothesis_id)

/-- `MilestoneEngine._detect_anchoring_bias`: only the earliest-created
hypothesis can be flagged; indicators are high likelihood with under 2
evidence links, a likelihood gap above 0.3 over the other active
hypotheses, and systematically under-weighted contradicting evidence. -/
def detect_anchoring_bias (case : Case) (hypothesis : Hypothesis) : Bool :=
  match (case.hypotheses.map (·.2) : List Hypothesis) with
  | [] => false
  | v :: vs =>
    let first := vs.foldl (fun best h =>
      if h.created_at < best.created_at then h else best) v
    if hypothesis.hypothesis_id ≠ first.hypothesis_id then false
    else if 75/100 < hypothesis.likelihood ∧ hypothesis.evidence_links.length < 2 then
      true
    else
      let others : List Hypothesis := (v :: vs).erase first
      let active_others : List Hypothesis :=
        others.filter (fun h => h.status = HypothesisStatus.active)
      let indicator₂ : Bool :=
        match active_others with
        | [] => false
        | a :: rest =>
          let max_other : ℚ :=
            rest.foldl (fun m h => py_max m h.likelihood) a.likelihood
          decide (3/10 < hypothesis.likelihood - max_other)
      if indicator₂ then true
      else
        let contradicting : List HypothesisEvidenceLink :=
          hypothesis.evidence_links.filter
            (fun l => l.stance = EvidenceStance.contradicting)
        let supporting : List HypothesisEvidenceLink :=
          hypothesis.evidence_links.filter
            (fun l => l.stance = EvidenceStance.supporting)
        if contradicting ≠ [] ∧ 0 < supporting.length then
          let avg_contradicting : ℚ :=
            (contradicting.map (fun l => l.relevance)).sum / (contradicting.length : ℚ)
          let avg_supporting : ℚ :=
            (supporting.map (fun l => l.relevance)).sum / (supporting.length : ℚ)
          decide (avg_contradicting < avg_supporting - 2/10)
        else false

structure HypothesisEvaluationArgs where
  hypothesis_id : Option String := none
  status : HypothesisStatus := .active
  likelihood : ℚ := 1/2
  supporting_evidence : List String := []
  contradicting_evidence : List String := []
  validation_reasoning : String := ""
  recommended_action : Option String := none
deriving DecidableEq

/-- `MilestoneEngine._process_hypothesis_evaluation`: set the declared
status and likelihood, extend the evidence links (skipping already-linked
evidence ids), run the anchoring-bias check (demoting to NEEDS_MORE_DATA
when it fires with no contradicting evidence), and record a validated
root cause into the milestone progress when recommended. -/
def process_hypothesis_evaluation (case : Case) (args : HypothesisEvaluationArgs) :
    Case × Option String :=
  match case.hypotheses.find? (fun p => some p.1 = args.hypothesis_id) with
  | none => (case, none)
  | some (key, hypothesis) =>
    let hypothesis := { hypothesis with status := args.status
                                        likelihood := args.likelihood }
    let links := args.supporting_evidence.foldl
      (fun ls ev_id =>
        if some ev_id ∈ ls.map (·.evidence_id) then ls
        else ls ++ [{ hypothesis_id := key
                      evidence_id := some ev_id
                      stance := .supporting
                      relevance := 8/10 : HypothesisEvidenceLink }])
      hypothesis.evidence_links
    let links := args.contradicting_evidence.foldl
      (fun ls ev_id =>
        if some ev_id ∈ ls.map (·.evidence_id) then ls
        else ls ++ [{ hypothesis_id := key
                      evidence_id := some ev_id
                      stance := .contradicting
                      relevance := 8/10 : HypothesisEvidenceLink }])
      links
    let hypothesis := { hypothesis with evidence_links := links }
    let case := { case with hypotheses := dict_insert case.hypotheses key hypothesis }
    let anchoring_detected := detect_anchoring_bias case hypothesis
    if anchoring_detected ∧ args.contradicting_evidence = [] then
      let hypothesis := { hypothesis with status := .needs_more_data }
      ({ case with hypotheses := dict_insert case.hypotheses key hypothesis },
       some key)
    else
      let case :=
        if args.status = HypothesisStatus.validated ∧
            args.recommended_action = some "ACCEPT_AS_ROOT_CAUSE" ∧
            !case.progress.root_cause_identified then
          { case with
              progress := { case.progress with
                root_cause_identified := true
                root_cause_confidence := args.likelihood
                root_cause_method := some "hypothesis_validation" }
              problem_verification := { case.problem_verification with
                root_cause_statement := some hypothesis.statement } }
        else case
      (case, some key)

/-- The keyword fallback of `_process_response` used when no structured
tool calls are available: substring checks on the lower-cased LLM
response, each guarded by the flag being false. -/
def keyword_fallback (case : Case) (llm_response : String) : Case × List String :=
  let s₁ : Case × List String :=
    if !case.progress.symptom_verified ∧ py_contains llm_response "symptom" then
      ({ case with progress := { case.progress with symptom_verified := true } },
       ["symptom_verified"])
    else (case, [])
  let s₂ : Case × List String :=
    if !s₁.1.progress.root_cause_identified ∧
        py_contains llm_response "root cause" then
      ({ s₁.1 with progress := { s₁.1.progress with
           root_cause_identified := true
           root_cause_confidence := 8/10
           root_cause_method := some "direct_analysis" } },
       s₁.2 ++ ["root_cause_identified"])
    else s₁
  let s₃ : Case × List String :=
    if !s₂.1.progress.solution_proposed ∧ py_contains llm_response "solution" then
      ({ s₂.1 with progress := { s₂.1.progress with solution_proposed := true } },
       s₂.2 ++ ["solution_proposed"])
    else s₂
  s₃

/-- A parsed structured tool call (entries whose JSON arguments fail to
parse are skipped by the source before this point). -/
inductive ToolCall
  | update_milestones (milestones : List MilestoneUpdate)
  | analyze_evidence (args : EvidenceAnalysisArgs)
  | generate_hypothesis (args : HypothesisGenerationArgs)
  | evaluate_hypothesis (args : HypothesisEvaluationArgs)
deriving DecidableEq

/-- The turn-metadata dictionary `_process_response` returns; absent keys
of the source's per-branch dicts are the defaults here (matching the
`metadata.get(..., default)` reads of `process_turn`). -/
structure TurnMetadata where
  milestones_completed : List String := []
  evidence_added : List String := []
  hypotheses_generated : List String := []
  hypotheses_validated : List String := []
  solutions_proposed : List String := []
  files_uploaded : List String := []
  progress_made : Bool := false
  outcome : TurnOutcome := .conversation
  status_transitioned : Bool := false
deriving DecidableEq

/-- `MilestoneEngine._transition_to_investigating`: set INVESTIGATING,
copy the confirmed problem statement into the description, reset
`progress` to a fresh all-false milestone set and initialize the problem
verification scaffolding from the description.  The path-selection gate
never fires here because the fresh scaffolding has no temporal state. -/
def transition_to_investigating (deps : Deps) (case : Case) : Case :=
  let case := { case with status := .investigating }
  let case :=
    if py_truthy case.consulting.proposed_problem_statement then
      { case with description := case.consulting.proposed_problem_statement.getD "" }
    else case
  let case := { case with progress := {} }
  let case := { case with
    problem_verification := { symptom_statement := case.description } }
  if case.problem_verification.temporal_state.isSome ∧
      case.problem_verification.urgency_level.isSome then
    { case with
        path_selection := some (deps.determine_path case.problem_verification) }
  else case

/-- The state accumulated while folding structured tool calls. -/
structure ToolCallAcc where
  case : Case
  milestones_completed : List String := []
  evidence_added : List String := []
  hypotheses_generated : List String := []
  hypotheses_validated : List String := []

/-- Dispatch of one structured tool call inside `_process_response`. -/
def apply_tool_call (deps : Deps) (acc : ToolCallAcc) (tc : ToolCall) : ToolCallAcc :=
  match tc with
  | .update_milestones us =>
      let cd := process_milestone_updates deps acc.case us
      { acc with case := cd.1
                 milestones_completed := acc.milestones_completed ++ cd.2 }
  | .analyze_evidence args =>
      let cr := process_evidence_analysis acc.case args
      { acc with case := cr.1, evidence_added :=
          acc.evidence_added ++ (match cr.2 with | some id => [id] | none => []) }
  | .generate_hypothesis args =>
      let cr := process_hypothesis_generation acc.case args
      { acc with case := cr.1, hypotheses_generated :=
          acc.hypotheses_generated ++ (match cr.2 with | some id => [id] | none => []) }
  | .evaluate_hypothesis args =>
      let cr := process_hypothesis_evaluation acc.case args
      { acc with case := cr.1, hypotheses_validated :=
          acc.hypotheses_validated ++ (match cr.2 with | some id => [id] | none => []) }

/-- One attachment-ingestion step of the INVESTIGATING branch of
`_process_response`: upload the file and create the matching evidence
record. -/
def invest_attach_step (acc : Case × List String) (a : Attachment) :
    Case × List String :=
  let c := acc.1
  let uf := create_uploaded_file_from_attachment a (c.current_turn + 1)
  let c := { c with uploaded_files := c.uploaded_files ++ [uf] }
  let ev := create_evidence_from_attachment c a (c.current_turn + 1)
  ({ c with evidence := c.evidence ++ [ev] }, acc.2 ++ [ev.evidence_id])

/-- `MilestoneEngine._process_response`, branching on the case status.
`tool_calls` mirrors the source parameter (`none`, or a possibly empty
list: Python's `if tool_calls:` / `if not tool_calls:` treat `None` and
`[]` alike, so an empty list also takes the keyword fallback). -/
def process_response (deps : Deps) (case : Case)
    (user_message llm_response : String) (tool_calls : Option (List ToolCall))
    (attachments : List Attachment) : Case × TurnMetadata :=
  match case.status with
  | .consulting =>
    let (case, files_uploaded) :=
      attachments.foldl
        (fun (acc : Case × List String) a =>
          let uf := create_uploaded_file_from_attachment a (acc.1.current_turn + 1)
          ({ acc.1 with uploaded_files := acc.1.uploaded_files ++ [uf] },
           acc.2 ++ [uf.file_id]))
        (case, [])
    let case :=
      if (py_contains user_message "yes" || py_contains user_message "correct") ∧
          py_truthy case.consulting.proposed_problem_statement then
        { case with consulting :=
            { case.consulting with problem_statement_confirmed := true } }
      else case
    let case :=
      if (py_contains user_message "investigate" ||
            py_contains user_message "go ahead") ∧
          case.consulting.problem_statement_confirmed then
        { case with consulting :=
            { case.consulting with decided_to_investigate := true } }
      else case
    let status_transitioned : Bool :=
      case.consulting.problem_statement_confirmed &&
        case.consulting.decided_to_investigate
    let case :=
      if case.consulting.problem_statement_confirmed ∧
          case.consulting.decided_to_investigate then
        transition_to_investigating deps case
      else case
    (case,
     { progress_made :=
         case.consulting.problem_statement_confirmed || !files_uploaded.isEmpty
       outcome := if !attachments.isEmpty then .data_provided else .conversation
       status_transitioned := status_transitioned
       files_uploaded := files_uploaded })
  | .investigating =>
    let ce := attachments.foldl invest_attach_step (case, [])
    let case := ce.1
    let evidence_added := ce.2
    let has_tool_calls : Bool :=
      match tool_calls with | some (_ :: _) => true | _ => false
    let acc : ToolCallAcc :=
      if has_tool_calls then
        (tool_calls.getD []).foldl (apply_tool_call deps)
          { case := case, evidence_added := evidence_added }
      else { case := case, evidence_added := evidence_added }
    let cm : Case × List String :=
      if !has_tool_calls then
        let km := keyword_fallback acc.case llm_response
        (km.1, acc.milestones_completed ++ km.2)
      else (acc.case, acc.milestones_completed)
    let case := cm.1
    let milestones_completed := cm.2
    let outcome :=
      if !milestones_completed.isEmpty then TurnOutcome.milestone_completed
      else if !attachments.isEmpty then TurnOutcome.data_provided
      else TurnOutcome.conversation
    (case,
     { milestones_completed := milestones_completed
       evidence_added := acc.evidence_added
       hypotheses_generated := acc.hypotheses_generated
       hypotheses_validated := acc.hypotheses_validated
       solutions_proposed := []
       progress_made :=
         !milestones_completed.isEmpty || !acc.evidence_added.isEmpty
       outcome := outcome
       status_transitioned := false })
  | .resolved => (case, { progress_made := false, outcome := .conversation })
  | .closed => (case, { progress_made := false, outcome := .conversation })

/-- `MilestoneEngine._check_automatic_transitions`: the only automatic
status transition, INVESTIGATING → RESOLVED on a verified solution. -/
def check_automatic_transitions (case : Case) : Case :=
  if case.status = CaseStatus.investigating ∧ case.progress.solution_verified then
    { case with status := .resolved, closure_reason := some "resolved" }
  else case

/-- `MilestoneEngine._apply_degraded_mode_recovery`: append the recovery
action for the active degraded mode (`current_stage` is the external
derived property supplied through `deps`); CIRCULAR_REASONING also demotes
every ACTIVE hypothesis to NEEDS_MORE_DATA. -/
def apply_degraded_mode_recovery (deps : Deps) (case : Case) : Case :=
  match case.degraded_mode with
  | none => case
  | some dm =>
    let record_action (a : String) : Option DegradedMode :=
      some { dm with attempted_actions := dm.attempted_actions ++ [a] }
    match dm.mode_type with
    | .no_progress =>
        match deps.current_stage case.progress with
        | .problem_verification =>
            { case with
                degraded_mode := record_action "engagement_shift_to_hypothesis" }
        | .investigation =>
            { case with
                degraded_mode := record_action "engagement_shift_to_expert" }
        | .other_stage => case
    | .insufficient_data =>
        { case with degraded_mode := record_action "request_specific_evidence" }
    | .circular_reasoning =>
        let hypotheses := case.hypotheses.map fun p =>
          if p.2.status = HypothesisStatus.active then
            (p.1, { p.2 with status := HypothesisStatus.needs_more_data })
          else p
        { case with
            hypotheses := hypotheses
            degraded_mode := record_action "force_hypothesis_reevaluation" }
    | .stalled_verification =>
        { case with
            degraded_mode := record_action "suggest_alternate_verification" }

/-- `MilestoneEngine._enter_degraded_mode`: a no-op when a degraded mode
is already active; otherwise record it (with the templated reason for
NO_PROGRESS) and apply the recovery strategy. -/
def enter_degraded_mode (deps : Deps) (case : Case)
    (mode_type : DegradedModeType) (reason : Option String) : Case :=
  if case.degraded_mode.isSome then case
  else
    let reason := reason.getD
      (if mode_type = DegradedModeType.no_progress then
        "No progress for " ++ toString case.turns_without_progress ++
          " consecutive turns"
      else "Investigation limitations encountered")
    let dm : DegradedMode :=
      { mode_type := mode_type, reason := reason, attempted_actions := [] }
    let case := { case with degraded_mode := some dm }
    apply_degraded_mode_recovery deps case

/-- `MilestoneEngine._check_degraded_mode_exit`: any progress clears the
degraded mode and the no-progress counter. -/
def check_degraded_mode_exit (case : Case) (progress_made : Bool) : Case :=
  match case.degraded_mode with
  | none => case
  | some _ =>
    if progress_made then
      { case with degraded_mode := none, turns_without_progress := 0 }
    else case

/-- `MilestoneEngine._extract_actions`: the action keywords found in the
lower-cased agent response, in keyword order, capped at 5. -/
def extract_actions (agent_response : String) : List String :=
  ((["verified", "identified", "proposed", "tested", "confirmed",
     "analyzed"]).filter (fun k => py_contains agent_response k)).take 5

/-- `MilestoneEngine._summarize_text`. -/
def summarize_text (text : String) (max_length : Nat) : String :=
  if text.data.length ≤ max_length then text
  else take_chars text (max_length - 3) ++ "..."

/-- `MilestoneEngine._create_turn_record`. -/
def create_turn_record (turn_number : Nat)
    (milestones_completed evidence_added hypotheses_generated
      hypotheses_validated solutions_proposed : List String)
    (progress_made : Bool) (outcome : TurnOutcome)
    (user_message agent_response : String) : TurnProgress :=
  let actions := extract_actions agent_response
  let actions :=
    if milestones_completed ≠ [] then
      actions ++ (milestones_completed.take 3).map (fun m => "completed_" ++ m)
    else actions
  let actions :=
    if evidence_added ≠ [] then
      actions ++ ["added_" ++ toString evidence_added.length ++ "_evidence"]
    else actions
  let actions :=
    if hypotheses_generated ≠ [] then
      actions ++
        ["generated_" ++ toString hypotheses_generated.length ++ "_hypotheses"]
    else actions
  let actions :=
    if hypotheses_validated ≠ [] then
      actions ++
        ["validated_" ++ toString hypotheses_validated.length ++ "_hypotheses"]
    else actions
  let actions :=
    if solutions_proposed ≠ [] then
      actions ++ ["proposed_" ++ toString solutions_proposed.length ++ "_solutions"]
    else actions
  { turn_number := turn_number
    milestones_completed := milestones_completed
    evidence_added := evidence_added
    hypotheses_generated := hypotheses_generated
    hypotheses_validated := hypotheses_validated
    solutions_proposed := solutions_proposed
    progress_made := progress_made
    actions_taken := actions.take 10
    outcome := outcome
    user_message_summary := summarize_text user_message 200
    agent_response_summary := summarize_text agent_response 500 }

/-- `MilestoneEngine.process_turn`, with the prompt build and LLM call
(steps 1–4) externalized: `llm_response` is the provider's returned text.
As in the source, `tool_calls` is hard-coded to `None` at this level, the
turn counter is incremented, the turn record appended, the no-progress
counter and degraded mode maintained, and the automatic transitions
checked.  The final save through the case-service client is external. -/
def process_turn (deps : Deps) (case : Case) (user_message llm_response : String)
    (attachments : List Attachment) : Case × TurnMetadata :=
  let pr := process_response deps case user_message llm_response none attachments
  let updated_case := pr.1
  let turn_metadata := pr.2
  let updated_case := { updated_case with current_turn := updated_case.current_turn + 1 }
  let turn_record := create_turn_record updated_case.current_turn
    turn_metadata.milestones_completed turn_metadata.evidence_added
    turn_metadata.hypotheses_generated turn_metadata.hypotheses_validated
    turn_metadata.solutions_proposed turn_metadata.progress_made
    turn_metadata.outcome user_message llm_response
  let updated_case := { updated_case with
    turn_history := updated_case.turn_history ++ [turn_record] }
  let updated_case :=
    if turn_metadata.progress_made then
      { updated_case with turns_without_progress := 0 }
    else
      { updated_case with
          turns_without_progress := updated_case.turns_without_progress + 1 }
  let updated_case :=
    if turn_metadata.progress_made then
      check_degraded_mode_exit updated_case true
    else if 3 ≤ updated_case.turns_without_progress ∧
        updated_case.degraded_mode = none then
      enter_degraded_mode deps updated_case .no_progress none
    else updated_case
  let updated_case := check_automatic_transitions updated_case
  (updated_case, turn_metadata)

end MilestoneEngine

namespace HypothesisManager

theorem clamp01_nonneg (q : ℚ) : 0 ≤ clamp01 q := by
  unfold clamp01
  split_ifs with h1 h2
  · norm_num
  · norm_num
  · linarith [not_lt.mp h1]

theorem clamp01_le_one (q : ℚ) : clamp01 q ≤ 1 := by
  unfold clamp01
  split_ifs with h1 h2
  · norm_num
  · norm_num
  · linarith [not_lt.mp h2]

/-- The status-transition check touches only `status` and
`retirement_reason`. -/
theorem check_status_transition_fields (h : Hypothesis) :
    (check_status_transition h).likelihood = h.likelihood ∧
    (check_status_transition h).supporting_evidence = h.supporting_evidence ∧
    (check_status_transition h).refuting_evidence = h.refuting_evidence ∧
    (check_status_transition h).iterations_without_progress =
      h.iterations_without_progress := by
  unfold check_status_transition
  dsimp only
  refine ⟨?_, ?_, ?_, ?_⟩ <;> (split_ifs <;> rfl)

theorem update_confidence_likelihood (h : Hypothesis) (turn : Nat) :
    (update_confidence_from_evidence h turn).likelihood =
      clamp01 (h.initial_likelihood +
        (h.supporting_evidence.length : ℚ) * (15/100) -
        (h.refuting_evidence.length : ℚ) * (20/100)) := by
  unfold update_confidence_from_evidence
  rw [(check_status_transition_fields _).1]
  split <;> rfl

end HypothesisManager

namespace HypothesisManager

/-- C2 — Evidence-based confidence update: `update_confidence_from_evidence`
always sets the likelihood to
`clamp(initial_likelihood + 0.15·supporting − 0.20·refuting, 0, 1)`, which
in particular stays in `[0, 1]`; and a hypothesis created with initial
likelihood 0.5 that is linked exactly 2 supporting and 0 refuting evidence
items ends with likelihood 0.80. -/
theorem c2_evidence_based_confidence_update :
    (∀ (h : Hypothesis) (turn : Nat),
      (update_confidence_from_evidence h turn).likelihood =
        clamp01 (h.initial_likelihood +
          (h.supporting_evidence.length : ℚ) * (15/100) -
          (h.refuting_evidence.length : ℚ) * (20/100)) ∧
      0 ≤ (update_confidence_from_evidence h turn).likelihood ∧
      (update_confidence_from_evidence h turn).likelihood ≤ 1) ∧
    (link_evidence (link_evidence
        (create_hypothesis "hyp_1" "db overload" "network" (1/2) 1
          HypothesisGenerationMode.systematic HypothesisStatus.active)
        "ev_1" true 2) "ev_2" true 3).likelihood = 8/10 := by
  constructor
  · intro h turn
    refine ⟨update_confidence_likelihood h turn, ?_, ?_⟩
    · rw [update_confidence_likelihood]
      exact clamp01_nonneg _
    · rw [update_confidence_likelihood]
      exact clamp01_le_one _
  · have hne : ("ev_2" = "ev_1") = False := by decide
    norm_num [hne, link_evidence, update_confidence_from_evidence,
      check_status_transition, create_hypothesis, clamp01, py_abs]

end HypothesisManager

namespace HypothesisManager

/-- C3 — Status-transition precedence: the automatic check only applies to
ACTIVE hypotheses, and evaluates VALIDATED (likelihood ≥ 0.70 and ≥ 2
supporting), then REFUTED (likelihood ≤ 0.20 and ≥ 2 refuting, setting a
retirement reason), then RETIRED (likelihood < 0.30), first match winning;
otherwise the hypothesis is unchanged. -/
theorem c3_status_transition_precedence (h : Hypothesis) :
    (h.status ≠ HypothesisStatus.active → check_status_transition h = h) ∧
    (h.status = HypothesisStatus.active →
      (70/100 ≤ h.likelihood ∧ 2 ≤ h.supporting_evidence.length →
        (check_status_transition h).status = HypothesisStatus.validated) ∧
      (¬(70/100 ≤ h.likelihood ∧ 2 ≤ h.supporting_evidence.length) →
        h.likelihood ≤ 20/100 ∧ 2 ≤ h.refuting_evidence.length →
        (check_status_transition h).status = HypothesisStatus.refuted ∧
        (check_status_transition h).retirement_reason =
          some "Refuted by evidence") ∧
      (¬(70/100 ≤ h.likelihood ∧ 2 ≤ h.supporting_evidence.length) →
        ¬(h.likelihood ≤ 20/100 ∧ 2 ≤ h.refuting_evidence.length) →
        h.likelihood < 3/10 →
        (check_status_transition h).status = HypothesisStatus.retired) ∧
      (¬(70/100 ≤ h.likelihood ∧ 2 ≤ h.supporting_evidence.length) →
        ¬(h.likelihood ≤ 20/100 ∧ 2 ≤ h.refuting_evidence.length) →
        ¬(h.likelihood < 3/10) →
        check_status_transition h = h)) := by
  constructor
  · intro hne
    unfold check_status_transition
    simp [hne]
  · intro hact
    refine ⟨?_, ?_, ?_, ?_⟩ <;>
      (intros
       unfold check_status_transition
       dsimp only
       split_ifs <;> first | rfl | simp_all)

/-- Witness for C3: a hypothesis with likelihood 0.75, exactly 2
supporting and 3 refuting evidence items is classified VALIDATED. -/
theorem c3_status_transition_precedence_witness :
    (check_status_transition
      { hypothesis_id := "hyp_1", status := .active, likelihood := 3/4,
        initial_likelihood := 3/4, supporting_evidence := ["e1", "e2"],
        refuting_evidence := ["e3", "e4", "e5"] }).status =
      HypothesisStatus.validated :=
  ((c3_status_transition_precedence _).2 rfl).1 ⟨by norm_num, by simp⟩

end HypothesisManager

namespace HypothesisManager

theorem update_hypothesis_confidence_supporting (h : Hypothesis) (l : ℚ) (t : Nat) :
    (update_hypothesis_confidence h l t).supporting_evidence =
      h.supporting_evidence := by
  unfold update_hypothesis_confidence
  dsimp only
  rw [(check_status_transition_fields _).2.1]
  split_ifs <;> rfl

theorem update_hypothesis_confidence_refuting (h : Hypothesis) (l : ℚ) (t : Nat) :
    (update_hypothesis_confidence h l t).refuting_evidence =
      h.refuting_evidence := by
  unfold update_hypothesis_confidence
  dsimp only
  rw [(check_status_transition_fields _).2.2.1]
  split_ifs <;> rfl

theorem update_confidence_from_evidence_supporting (h : Hypothesis) (t : Nat) :
    (update_confidence_from_evidence h t).supporting_evidence =
      h.supporting_evidence := by
  unfold update_confidence_from_evidence
  dsimp only
  rw [(check_status_transition_fields _).2.1]
  split_ifs <;> rfl

theorem update_confidence_from_evidence_refuting (h : Hypothesis) (t : Nat) :
    (update_confidence_from_evidence h t).refuting_evidence =
      h.refuting_evidence := by
  unfold update_confidence_from_evidence
  dsimp only
  rw [(check_status_transition_fields _).2.2.1]
  split_ifs <;> rfl

/-- Counterexample to C9: a hypothesis whose supporting list is the
duplicate-free `["e1"]`, put through `record_hypothesis_test` with outcome
`"supports"` and obtained evidence `["e1"]`, ends with the duplicated
supporting list `["e1", "e1"]` — the source's `extend` has no membership
check, unlike `link_evidence`. -/
theorem c9_counterexample :
    ({ hypothesis_id := "hyp_1", status := .active, likelihood := 1/2,
       initial_likelihood := 1/2,
       supporting_evidence := ["e1"] : Hypothesis }).supporting_evidence.Nodup ∧
    ¬ ((record_hypothesis_test
        { hypothesis_id := "hyp_1", status := .active, likelihood := 1/2,
          initial_likelihood := 1/2, supporting_evidence := ["e1"] }
        "retest" [] ["e1"] "supports" 0 3 1).1.supporting_evidence.Nodup) := by
  constructor
  · decide
  · have heq : (record_hypothesis_test
        { hypothesis_id := "hyp_1", status := .active, likelihood := 1/2,
          initial_likelihood := 1/2, supporting_evidence := ["e1"] }
        "retest" [] ["e1"] "supports" 0 3 1).1.supporting_evidence =
        ["e1", "e1"] := by
      simp [record_hypothesis_test, update_hypothesis_confidence_supporting]
    rw [heq]
    decide

/-- C9 amended: `link_evidence` always preserves duplicate-freeness of
both evidence lists, but `record_hypothesis_test` extends them without a
membership check, so it preserves duplicate-freeness only under the
proviso that the obtained evidence ids are duplicate-free and none of
them is already linked. -/
theorem c9_duplicate_free_evidence_links (h : Hypothesis)
    (hs : h.supporting_evidence.Nodup) (hr : h.refuting_evidence.Nodup) :
    (∀ (evidence_id : String) (supports : Bool) (turn : Nat),
      (link_evidence h evidence_id supports turn).supporting_evidence.Nodup ∧
      (link_evidence h evidence_id supports turn).refuting_evidence.Nodup) ∧
    (∀ (td : String) (req obt : List String) (result : String) (cc : ℚ)
        (ct oi : Nat),
      obt.Nodup →
      (∀ e ∈ obt, e ∉ h.supporting_evidence ∧ e ∉ h.refuting_evidence) →
      (record_hypothesis_test h td req obt result cc ct oi).1.supporting_evidence.Nodup ∧
      (record_hypothesis_test h td req obt result cc ct oi).1.refuting_evidence.Nodup) := by
  constructor
  · intro evidence_id supports turn
    unfold link_evidence
    dsimp only
    constructor
    · rw [update_confidence_from_evidence_supporting]
      split_ifs <;>
        simp_all [List.nodup_append, List.disjoint_singleton]
    · rw [update_confidence_from_evidence_refuting]
      split_ifs <;>
        simp_all [List.nodup_append, List.disjoint_singleton]
  · intro td req obt result cc ct oi hobt hfresh
    unfold record_hypothesis_test
    dsimp only
    constructor
    · rw [update_hypothesis_confidence_supporting]
      split_ifs <;>
        first
          | exact hs
          | exact List.Nodup.append hs hobt (fun a ha hb => (hfresh a hb).1 ha)
    · rw [update_hypothesis_confidence_refuting]
      split_ifs <;>
        first
          | exact hr
          | exact List.Nodup.append hr hobt (fun a ha hb => (hfresh a hb).2 ha)

/-- Witness for the amended C9 at concrete inputs: linking a fresh id and
recording a test with a fresh obtained id both keep the lists
duplicate-free. -/
theorem c9_duplicate_free_evidence_links_witness :
    (link_evidence
      { hypothesis_id := "hyp_1", status := .active, likelihood := 1/2,
        initial_likelihood := 1/2, supporting_evidence := ["e1"] }
      "e2" true 5).supporting_evidence.Nodup ∧
    (record_hypothesis_test
      { hypothesis_id := "hyp_1", status := .active, likelihood := 1/2,
        initial_likelihood := 1/2, supporting_evidence := ["e1"] }
      "t" [] ["e9"] "supports" 0 5 1).1.supporting_evidence.Nodup := by
  constructor
  · exact ((c9_duplicate_free_evidence_links _ (by decide) (by decide)).1
      "e2" true 5).1
  · exact ((c9_duplicate_free_evidence_links _ (by decide) (by decide)).2
      "t" [] ["e9"] "supports" 0 5 1 (by decide) (by decide)).1

end HypothesisManager

namespace HypothesisManager

/-- Number of non-retired/non-refuted hypotheses in a category. -/
def count_cat (hs : List Hypothesis) (c : String) : Nat :=
  ((active_of hs).filter (fun h => h.category = c)).length

/-- The total count an association list assigns to a key. -/
def cnt (cs : List (String × Nat)) (c : String) : Nat :=
  ((cs.filter (fun p => p.1 = c)).map (fun p => p.2)).sum

theorem cnt_nil (c : String) : cnt [] c = 0 := rfl

theorem cnt_cons (k : String) (n : Nat) (xs : List (String × Nat)) (c : String) :
    cnt ((k, n) :: xs) c = (if k = c then n else 0) + cnt xs c := by
  by_cases hk : k = c <;> simp [cnt, List.filter_cons, hk]

theorem cnt_add_count (cs : List (String × Nat)) (c₀ c : String) :
    cnt (add_count cs c₀) c = if c = c₀ then cnt cs c + 1 else cnt cs c := by
  induction cs with
  | nil =>
      by_cases hc : c = c₀
      · subst hc
        simp [add_count, cnt_cons, cnt_nil]
      · have hc' : c₀ ≠ c := fun h => hc h.symm
        simp [add_count, cnt_cons, cnt_nil, hc, hc']
  | cons p rest ih =>
      obtain ⟨k, n⟩ := p
      by_cases hk : k = c₀
      · subst hk
        rw [show add_count ((k, n) :: rest) k = (k, n + 1) :: rest from by
              simp [add_count]]
        by_cases hc : c = k
        · subst hc
          rw [cnt_cons, cnt_cons, if_pos rfl, if_pos rfl, if_pos rfl]
          omega
        · have hkc : k ≠ c := fun h => hc h.symm
          rw [cnt_cons, cnt_cons, if_neg hkc, if_neg hkc, if_neg hc]
      · rw [show add_count ((k, n) :: rest) c₀ = (k, n) :: add_count rest c₀ from by
              simp [add_count, hk]]
        rw [cnt_cons, cnt_cons, ih]
        by_cases hc : c = c₀ <;> simp only [hc, if_true, if_false]
        all_goals omega

theorem cnt_fold (l : List Hypothesis) (cs : List (String × Nat)) (c : String) :
    cnt (l.foldl (fun a h => add_count a h.category) cs) c =
      cnt cs c + (l.filter (fun h => h.category = c)).length := by
  induction l generalizing cs with
  | nil => simp
  | cons h rest ih =>
      rw [List.foldl_cons, ih, cnt_add_count]
      by_cases hc : h.category = c
      · rw [List.filter_cons, if_pos hc.symm,
          if_pos (show decide (h.category = c) = true from by simp [hc]),
          List.length_cons]
        omega
      · rw [List.filter_cons, if_neg (fun hh : c = h.category => hc hh.symm),
          if_neg (show ¬decide (h.category = c) = true from by simp [hc])]

theorem count_cat_eq_cnt (hyps : List Hypothesis) (c : String) :
    cnt (category_counts hyps) c = count_cat hyps c := by
  unfold category_counts count_cat
  rw [cnt_fold]
  simp [cnt_nil]

theorem cnt_eq_zero_of_not_mem_keys (cs : List (String × Nat)) (c : String)
    (hc : c ∉ cs.map Prod.fst) : cnt cs c = 0 := by
  induction cs with
  | nil => rfl
  | cons p rest ih =>
      obtain ⟨k, n⟩ := p
      simp only [List.map_cons, List.mem_cons] at hc
      push_neg at hc
      rw [cnt_cons, if_neg (fun h => hc.1 h.symm)]
      simpa using ih (by simpa using hc.2)

theorem add_count_keys (cs : List (String × Nat)) (c : String) :
    (add_count cs c).map Prod.fst =
      if c ∈ cs.map Prod.fst then cs.map Prod.fst else cs.map Prod.fst ++ [c] := by
  induction cs with
  | nil => simp [add_count]
  | cons p rest ih =>
      obtain ⟨k, n⟩ := p
      by_cases hk : k = c
      · subst hk
        simp [add_count]
      · rw [show add_count ((k, n) :: rest) c = (k, n) :: add_count rest c from by
              simp [add_count, hk]]
        simp only [List.map_cons, ih]
        by_cases hc : c ∈ rest.map Prod.fst
        · simp [hc, List.mem_cons]
        · have hck : ¬c = k := fun h => hk h.symm
          simp [hc, hck, List.mem_cons]

theorem add_count_keys_nodup (cs : List (String × Nat)) (c : String)
    (hn : (cs.map Prod.fst).Nodup) : ((add_count cs c).map Prod.fst).Nodup := by
  rw [add_count_keys]
  split_ifs with hc
  · exact hn
  · simp [List.nodup_append, hn, hc]

theorem counts_keys_nodup (l : List Hypothesis) (cs : List (String × Nat))
    (hn : (cs.map Prod.fst).Nodup) :
    ((l.foldl (fun a h => add_count a h.category) cs).map Prod.fst).Nodup := by
  induction l generalizing cs with
  | nil => exact hn
  | cons h rest ih => exact ih _ (add_count_keys_nodup _ _ hn)

theorem cnt_eq_entry (cs : List (String × Nat)) (hn : (cs.map Prod.fst).Nodup)
    (p : String × Nat) (hp : p ∈ cs) : cnt cs p.1 = p.2 := by
  induction cs with
  | nil => cases hp
  | cons q rest ih =>
      obtain ⟨k, n⟩ := q
      simp only [List.map_cons, List.nodup_cons] at hn
      rcases List.mem_cons.mp hp with heq | hmem
      · subst heq
        rw [cnt_cons, if_pos rfl,
          cnt_eq_zero_of_not_mem_keys _ _ (by simpa using hn.1)]
        simp
      · have hk : k ≠ p.1 := by
          intro hkp
          exact hn.1 (hkp ▸ (List.mem_map.mpr ⟨p, hmem, rfl⟩))
        rw [cnt_cons, if_neg hk, ih hn.2 hmem]
        omega

theorem fold_max_spec (c₀ : String × Nat) (rest : List (String × Nat)) :
    (rest.foldl (fun b c => if b.2 < c.2 then c else b) c₀ = c₀ ∨
      rest.foldl (fun b c => if b.2 < c.2 then c else b) c₀ ∈ rest) ∧
    c₀.2 ≤ (rest.foldl (fun b c => if b.2 < c.2 then c else b) c₀).2 ∧
    ∀ p ∈ rest, p.2 ≤ (rest.foldl (fun b c => if b.2 < c.2 then c else b) c₀).2 := by
  induction rest generalizing c₀ with
  | nil => simp
  | cons p rest ih =>
      rw [List.foldl_cons]
      obtain ⟨ihmem, ihle, ihall⟩ := ih (if c₀.2 < p.2 then p else c₀)
      refine ⟨?_, ?_, ?_⟩
      · rcases ihmem with heq | hmem
        · rw [heq]
          split_ifs with hlt
          · exact Or.inr (List.mem_cons_self _ _)
          · exact Or.inl rfl
        · exact Or.inr (List.mem_cons_of_mem _ hmem)
      · refine le_trans ?_ ihle
        split_ifs with hlt
        · exact le_of_lt hlt
        · exact le_refl _
      · intro q hq
        rcases List.mem_cons.mp hq with heq | hmem
        · subst heq
          refine le_trans ?_ ihle
          split_ifs with hlt
          · exact le_refl _
          · exact le_of_not_lt hlt
        · exact ihall q hmem

theorem forall₂_map_self {α β : Type} (l : List α) (f : α → β)
    (P : α → β → Prop) (h : ∀ x ∈ l, P x (f x)) : List.Forall₂ P l (l.map f) := by
  induction l with
  | nil => simp
  | cons x rest ih =>
      rw [List.map_cons]
      exact List.Forall₂.cons (h x (List.mem_cons_self _ _))
        (ih fun y hy => h y (List.mem_cons_of_mem _ hy))

end HypothesisManager

namespace HypothesisManager

/-- C10 — Implicit precondition of `force_alternative_generation`: when
every hypothesis is RETIRED or REFUTED (in particular for the empty list)
the category-count mapping is empty and the source's `max(...)` raises
`ValueError` (modelled as `none`); under the precondition that some
hypothesis is neither RETIRED nor REFUTED it returns constraints excluding
the dominant category (of maximal non-retired count) and requiring at
least 2 new hypotheses, having retired exactly the ACTIVE hypotheses of
that category with `iterations_without_progress ≥ 2`. -/
theorem c10_force_alternative_precondition (hyps : List Hypothesis) (turn : Nat) :
    ((∀ h ∈ hyps, h.status = HypothesisStatus.retired ∨
        h.status = HypothesisStatus.refuted) →
      force_alternative_generation hyps turn = none) ∧
    ((∃ h ∈ hyps, h.status ≠ HypothesisStatus.retired ∧
        h.status ≠ HypothesisStatus.refuted) →
      ∃ updated res,
        force_alternative_generation hyps turn = some (updated, res) ∧
        res.exclude_categories = [res.dominant_category] ∧
        res.require_diverse_categories = true ∧
        res.min_new_hypotheses = 2 ∧
        0 < count_cat hyps res.dominant_category ∧
        (∀ c, count_cat hyps c ≤ count_cat hyps res.dominant_category) ∧
        List.Forall₂ (fun h h' =>
          (fag_retires res.dominant_category h = true →
            h' = { h with
                     status := HypothesisStatus.retired
                     retirement_reason := some (fag_retirement_reason res.dominant_category)
                     last_updated_turn := turn }) ∧
          (fag_retires res.dominant_category h = false → h' = h))
          hyps updated) := by
  constructor
  · intro hall
    have hact : active_of hyps = [] := by
      unfold active_of
      rw [List.filter_eq_nil_iff]
      intro h hh
      rcases hall h hh with h1 | h1 <;> simp [h1]
    unfold force_alternative_generation
    rw [show category_counts hyps = [] from by
      unfold category_counts
      rw [hact]
      rfl]
  · rintro ⟨h, hh, hs⟩
    have hmem : h ∈ active_of hyps := by
      unfold active_of
      rw [List.mem_filter]
      exact ⟨hh, by simp [hs.1, hs.2]⟩
    have hcount1 : 0 < count_cat hyps h.category := by
      unfold count_cat
      have hmem2 : h ∈ (active_of hyps).filter (fun x => x.category = h.category) := by
        rw [List.mem_filter]
        exact ⟨hmem, by simp⟩
      exact List.length_pos.mpr (fun heq => by simp [heq] at hmem2)
    have hnonnil : category_counts hyps ≠ [] := by
      intro hnil
      have hc := count_cat_eq_cnt hyps h.category
      rw [hnil, cnt_nil] at hc
      omega
    obtain ⟨c₀, rest, hcr⟩ : ∃ c₀ rest, category_counts hyps = c₀ :: rest := by
      cases hcc : category_counts hyps with
      | nil => exact absurd hcc hnonnil
      | cons a b => exact ⟨a, b, rfl⟩
    have hnd : ((category_counts hyps).map Prod.fst).Nodup :=
      counts_keys_nodup (active_of hyps) [] (by simp)
    obtain ⟨hbmem, hble, hball⟩ := fold_max_spec c₀ rest
    have hbest_mem :
        rest.foldl (fun b c => if b.2 < c.2 then c else b) c₀ ∈
          category_counts hyps := by
      rw [hcr]
      rcases hbmem with heq | hmem'
      · rw [heq]; exact List.mem_cons_self _ _
      · exact List.mem_cons_of_mem _ hmem'
    have hmax : ∀ c, count_cat hyps c ≤
        count_cat hyps (max_count_key c₀ rest) := by
      intro c
      have hdom : cnt (category_counts hyps) (max_count_key c₀ rest) =
          (rest.foldl (fun b c => if b.2 < c.2 then c else b) c₀).2 :=
        cnt_eq_entry _ hnd _ hbest_mem
      by_cases hck : c ∈ (category_counts hyps).map Prod.fst
      · obtain ⟨p, hp, hpc⟩ := List.mem_map.mp hck
        have hcp : cnt (category_counts hyps) c = p.2 := by
          rw [← hpc]
          exact cnt_eq_entry _ hnd _ hp
        have hple : p.2 ≤ (rest.foldl (fun b c => if b.2 < c.2 then c else b) c₀).2 := by
          rw [hcr] at hp
          rcases List.mem_cons.mp hp with heq | hmem'
          · rw [heq]; exact hble
          · exact hball _ hmem'
        rw [← count_cat_eq_cnt, ← count_cat_eq_cnt, hcp, hdom]
        exact hple
      · rw [← count_cat_eq_cnt, ← count_cat_eq_cnt,
          cnt_eq_zero_of_not_mem_keys _ _ hck]
        exact Nat.zero_le _
    refine ⟨hyps.map (fun x => if fag_retires (max_count_key c₀ rest) x then
        { x with
            status := HypothesisStatus.retired
            retirement_reason :=
              some (fag_retirement_reason (max_count_key c₀ rest))
            last_updated_turn := turn }
      else x),
      { retired_count := (hyps.filter (fag_retires (max_count_key c₀ rest))).length
        dominant_category := max_count_key c₀ rest
        exclude_categories := [max_count_key c₀ rest]
        require_diverse_categories := true
        min_new_hypotheses := 2 }, ?_, ?_, ?_, ?_, ?_, ?_, ?_⟩
    · unfold force_alternative_generation
      rw [hcr]
    · rfl
    · rfl
    · rfl
    · calc 0 < count_cat hyps h.category := hcount1
        _ ≤ count_cat hyps (max_count_key c₀ rest) := hmax _
    · exact hmax
    · refine forall₂_map_self _ _ _ ?_
      intro x _
      constructor
      · intro hft
        simp [hft]
      · intro hff
        simp [hff]

/-- Witness for C10: the all-terminal (empty) input yields the raising
outcome, and a single stagnant ACTIVE hypothesis yields a constraints
object. -/
theorem c10_force_alternative_precondition_witness :
    force_alternative_generation ([] : List Hypothesis) 1 = none ∧
    (force_alternative_generation
      [{ hypothesis_id := "hyp_1", category := "net", status := .active,
         iterations_without_progress := 2 }] 7).isSome = true := by
  constructor
  · exact (c10_force_alternative_precondition [] 1).1 (by simp)
  · obtain ⟨u, r, heq, -⟩ :=
      (c10_force_alternative_precondition
        [{ hypothesis_id := "hyp_1", category := "net", status := .active,
           iterations_without_progress := 2 }] 7).2
        ⟨_, List.mem_cons_self _ _, by decide, by decide⟩
    rw [heq]
    rfl

end HypothesisManager

namespace HypothesisManager

/-- The hypothesis ids a category collects among a hypothesis list, in
order. -/
def cat_ids (l : List Hypothesis) (c : String) : List String :=
  (l.filter (fun h => h.category = c)).map (fun h => h.hypothesis_id)

/-- The stalled-hypothesis ids of condition 2 of `detect_anchoring`. -/
def stalled_ids (l : List Hypothesis) : List String :=
  (l.filter (fun h => 3 ≤ h.iterations_without_progress)).map
    (fun h => h.hypothesis_id)

/-- The concatenated bucket an association list of groups assigns to a
key. -/
def gcat (gs : List (String × List String)) (c : String) : List String :=
  ((gs.filter (fun p => p.1 = c)).map (fun p => p.2)).flatten

theorem gcat_nil (c : String) : gcat [] c = [] := rfl

theorem gcat_cons (k : String) (ids : List String)
    (xs : List (String × List String)) (c : String) :
    gcat ((k, ids) :: xs) c = (if k = c then ids else []) ++ gcat xs c := by
  by_cases hk : k = c <;> simp [gcat, List.filter_cons, hk]

theorem gcat_eq_nil_of_not_mem_keys (gs : List (String × List String))
    (c : String) (hc : c ∉ gs.map Prod.fst) : gcat gs c = [] := by
  induction gs with
  | nil => rfl
  | cons p rest ih =>
      obtain ⟨k, ids⟩ := p
      simp only [List.map_cons, List.mem_cons] at hc
      push_neg at hc
      rw [gcat_cons, if_neg (fun h => hc.1 h.symm)]
      simpa using ih (by simpa using hc.2)

theorem add_to_group_keys (gs : List (String × List String)) (c id : String) :
    (add_to_group gs c id).map Prod.fst =
      if c ∈ gs.map Prod.fst then gs.map Prod.fst else gs.map Prod.fst ++ [c] := by
  induction gs with
  | nil => simp [add_to_group]
  | cons p rest ih =>
      obtain ⟨k, ids⟩ := p
      by_cases hk : k = c
      · subst hk
        simp [add_to_group]
      · rw [show add_to_group ((k, ids) :: rest) c id =
              (k, ids) :: add_to_group rest c id from by simp [add_to_group, hk]]
        simp only [List.map_cons, ih]
        by_cases hc : c ∈ rest.map Prod.fst
        · simp [hc, List.mem_cons]
        · have hck : ¬c = k := fun h => hk h.symm
          simp [hc, hck, List.mem_cons]

theorem add_to_group_keys_nodup (gs : List (String × List String)) (c id : String)
    (hn : (gs.map Prod.fst).Nodup) : ((add_to_group gs c id).map Prod.fst).Nodup := by
  rw [add_to_group_keys]
  split_ifs with hc
  · exact hn
  · simp [List.nodup_append, hn, hc]

theorem gcat_add_to_group (gs : List (String × List String)) (c₀ id c : String)
    (hn : (gs.map Prod.fst).Nodup) :
    gcat (add_to_group gs c₀ id) c =
      if c = c₀ then gcat gs c ++ [id] else gcat gs c := by
  induction gs with
  | nil =>
      by_cases hc : c = c₀
      · subst hc
        simp [add_to_group, gcat_cons, gcat_nil]
      · have hc' : c₀ ≠ c := fun h => hc h.symm
        simp [add_to_group, gcat_cons, gcat_nil, hc, hc']
  | cons p rest ih =>
      obtain ⟨k, ids⟩ := p
      simp only [List.map_cons, List.nodup_cons] at hn
      by_cases hk : k = c₀
      · subst hk
        rw [show add_to_group ((k, ids) :: rest) k id = (k, ids ++ [id]) :: rest
            from by simp [add_to_group]]
        by_cases hc : c = k
        · subst hc
          rw [gcat_cons, gcat_cons, if_pos rfl, if_pos rfl, if_pos rfl,
            gcat_eq_nil_of_not_mem_keys rest c (by simpa using hn.1)]
          simp
        · have hkc : k ≠ c := fun h => hc h.symm
          rw [gcat_cons, gcat_cons, if_neg hkc, if_neg hkc, if_neg hc]
      · rw [show add_to_group ((k, ids) :: rest) c₀ id =
              (k, ids) :: add_to_group rest c₀ id from by simp [add_to_group, hk]]
        rw [gcat_cons, gcat_cons, ih hn.2]
        by_cases hc : c = c₀ <;> simp [hc]

theorem gcat_fold (l : List Hypothesis) (gs : List (String × List String))
    (c : String) (hn : (gs.map Prod.fst).Nodup) :
    gcat (l.foldl (fun a h => add_to_group a h.category h.hypothesis_id) gs) c =
      gcat gs c ++ cat_ids l c := by
  induction l generalizing gs with
  | nil => simp [cat_ids]
  | cons h rest ih =>
      rw [List.foldl_cons, ih _ (add_to_group_keys_nodup _ _ _ hn),
        gcat_add_to_group _ _ _ _ hn]
      by_cases hc : h.category = c
      · rw [if_pos hc.symm]
        simp [cat_ids, List.filter_cons, hc]
      · rw [if_neg (fun hh : c = h.category => hc hh.symm)]
        simp [cat_ids, List.filter_cons, hc]

theorem gcat_groups (l : List Hypothesis) (c : String) :
    gcat (category_groups l) c = cat_ids l c := by
  unfold category_groups
  rw [gcat_fold _ _ _ (by simp)]
  simp [gcat_nil]

theorem groups_keys_nodup (l : List Hypothesis)
    (gs : List (String × List String)) (hn : (gs.map Prod.fst).Nodup) :
    (((l.foldl (fun a h => add_to_group a h.category h.hypothesis_id) gs)).map
      Prod.fst).Nodup := by
  induction l generalizing gs with
  | nil => exact hn
  | cons h rest ih => exact ih _ (add_to_group_keys_nodup _ _ _ hn)

theorem gcat_eq_entry (gs : List (String × List String))
    (hn : (gs.map Prod.fst).Nodup) (p : String × List String) (hp : p ∈ gs) :
    gcat gs p.1 = p.2 := by
  induction gs with
  | nil => cases hp
  | cons q rest ih =>
      obtain ⟨k, ids⟩ := q
      simp only [List.map_cons, List.nodup_cons] at hn
      rcases List.mem_cons.mp hp with heq | hmem
      · subst heq
        rw [gcat_cons, if_pos rfl,
          gcat_eq_nil_of_not_mem_keys _ _ (by simpa using hn.1)]
        simp
      · have hk : k ≠ p.1 := by
          intro hkp
          exact hn.1 (hkp ▸ (List.mem_map.mpr ⟨p, hmem, rfl⟩))
        rw [gcat_cons, if_neg hk, ih hn.2 hmem]
        simp

theorem category_groups_keys_nodup (l : List Hypothesis) :
    ((category_groups l).map Prod.fst).Nodup :=
  groups_keys_nodup l [] (by simp)

theorem top_by_likelihood_spec (h₀ : Hypothesis) (hs : List Hypothesis) :
    (top_by_likelihood h₀ hs = h₀ ∨ top_by_likelihood h₀ hs ∈ hs) ∧
    h₀.likelihood ≤ (top_by_likelihood h₀ hs).likelihood ∧
    ∀ h ∈ hs, h.likelihood ≤ (top_by_likelihood h₀ hs).likelihood := by
  induction hs generalizing h₀ with
  | nil => simp [top_by_likelihood]
  | cons p rest ih =>
      unfold top_by_likelihood at *
      rw [List.foldl_cons]
      obtain ⟨ihmem, ihle, ihall⟩ := ih (if h₀.likelihood < p.likelihood then p else h₀)
      refine ⟨?_, ?_, ?_⟩
      · rcases ihmem with heq | hmem
        · rw [heq]
          split_ifs with hlt
          · exact Or.inr (List.mem_cons_self _ _)
          · exact Or.inl rfl
        · exact Or.inr (List.mem_cons_of_mem _ hmem)
      · refine le_trans ?_ ihle
        split_ifs with hlt
        · exact le_of_lt hlt
        · exact le_refl _
      · intro q hq
        rcases List.mem_cons.mp hq with heq | hmem
        · subst heq
          refine le_trans ?_ ihle
          split_ifs with hlt
          · exact le_refl _
          · exact le_of_not_lt hlt
        · exact ihall q hmem

end HypothesisManager

namespace HypothesisManager

/-- C4 — Anchoring detection order: over the non-retired/non-refuted
hypotheses, `detect_anchoring` returns on the first matching condition:
(1) some category holds at least 4 of them (returning those ids); else
(2) at least 2 are stalled for 3+ iterations (returning the stalled ids);
else (3) the single highest-likelihood one is stalled 3+ iterations below
likelihood 0.70 (returning its id); else `(False, None, [])` — and in
particular 4 ACTIVE hypotheses all in category "network" yield `True` with
those 4 ids. -/
theorem c4_anchoring_detection_order (hyps : List Hypothesis) (cur : Nat) :
    ((∃ c, 4 ≤ (cat_ids (active_of hyps) c).length) →
      (detect_anchoring hyps cur).1 = true ∧
      ∃ c, 4 ≤ (cat_ids (active_of hyps) c).length ∧
        (detect_anchoring hyps cur).2.2 = cat_ids (active_of hyps) c) ∧
    ((∀ c, (cat_ids (active_of hyps) c).length < 4) →
      2 ≤ (stalled_ids (active_of hyps)).length →
      detect_anchoring hyps cur =
        (true,
         some (AnchoringReason.stalled_hypotheses
           (stalled_ids (active_of hyps)).length),
         stalled_ids (active_of hyps))) ∧
    ((∀ c, (cat_ids (active_of hyps) c).length < 4) →
      (stalled_ids (active_of hyps)).length < 2 →
      ∀ h₀ rest, active_of hyps = h₀ :: rest →
        (∀ h ∈ active_of hyps,
          h.likelihood ≤ (top_by_likelihood h₀ rest).likelihood) ∧
        (3 ≤ (top_by_likelihood h₀ rest).iterations_without_progress ∧
            (top_by_likelihood h₀ rest).likelihood < 7/10 →
          detect_anchoring hyps cur =
            (true,
             some (AnchoringReason.top_hypothesis_stagnant
               (top_by_likelihood h₀ rest).iterations_without_progress
               (top_by_likelihood h₀ rest).likelihood),
             [(top_by_likelihood h₀ rest).hypothesis_id])) ∧
        (¬(3 ≤ (top_by_likelihood h₀ rest).iterations_without_progress ∧
            (top_by_likelihood h₀ rest).likelihood < 7/10) →
          detect_anchoring hyps cur = (false, none, []))) ∧
    (active_of hyps = [] → detect_anchoring hyps cur = (false, none, [])) ∧
    detect_anchoring
      [{ hypothesis_id := "a", category := "network", status := .active },
       { hypothesis_id := "b", category := "network", status := .active },
       { hypothesis_id := "c", category := "network", status := .active },
       { hypothesis_id := "d", category := "network", status := .active }] 5 =
      (true, some (AnchoringReason.category_concentration "network" 4),
       ["a", "b", "c", "d"]) := by
  have hnd := category_groups_keys_nodup (active_of hyps)
  refine ⟨?_, ?_, ?_, ?_, ?_⟩
  · rintro ⟨c, hc⟩
    have hne : active_of hyps ≠ [] := by
      intro h0
      rw [h0] at hc
      simp [cat_ids] at hc
    have hkey : c ∈ (category_groups (active_of hyps)).map Prod.fst := by
      by_contra hk
      have h0 := gcat_eq_nil_of_not_mem_keys _ _ hk
      rw [gcat_groups] at h0
      rw [h0] at hc
      simp at hc
    obtain ⟨p, hp, hpc⟩ := List.mem_map.mp hkey
    have hpval : p.2 = cat_ids (active_of hyps) p.1 := by
      rw [← gcat_eq_entry _ hnd p hp, gcat_groups]
    obtain ⟨g, hg⟩ : ∃ g, List.find? (fun g => 4 ≤ g.2.length)
        (category_groups (active_of hyps)) = some g := by
      rw [← Option.isSome_iff_exists, List.find?_isSome]
      refine ⟨p, hp, ?_⟩
      simp only [decide_eq_true_eq, hpval, hpc]
      exact hc
    have hgp : 4 ≤ g.2.length := by
      have := List.find?_some hg
      simpa using this
    have hgmem : g ∈ category_groups (active_of hyps) :=
      List.mem_of_find?_eq_some hg
    have hgval : g.2 = cat_ids (active_of hyps) g.1 := by
      rw [← gcat_eq_entry _ hnd g hgmem, gcat_groups]
    obtain ⟨gc, gids⟩ := g
    have hda : detect_anchoring hyps cur =
        (true, some (.category_concentration gc gids.length), gids) := by
      unfold detect_anchoring
      dsimp only
      rw [if_neg hne, hg]
    rw [hda]
    exact ⟨rfl, gc, by simpa [← hgval] using hgp, by simpa using hgval⟩
  · intro hless hst
    have hne : active_of hyps ≠ [] := by
      intro h0
      rw [h0] at hst
      simp [stalled_ids] at hst
    have hnone : List.find? (fun g => 4 ≤ g.2.length)
        (category_groups (active_of hyps)) = none := by
      rw [List.find?_eq_none]
      intro g hg
      have hgval : g.2 = cat_ids (active_of hyps) g.1 := by
        rw [← gcat_eq_entry _ hnd g hg, gcat_groups]
      simp only [decide_eq_true_eq, hgval, not_le]
      exact hless g.1
    unfold detect_anchoring
    dsimp only
    rw [if_neg hne, hnone]
    dsimp only
    rw [if_pos (by simpa [stalled_ids] using hst)]
    simp [stalled_ids]
  · intro hless hst2 h₀ rest hsplit
    have hnone : List.find? (fun g => 4 ≤ g.2.length)
        (category_groups (active_of hyps)) = none := by
      rw [List.find?_eq_none]
      intro g hg
      have hgval : g.2 = cat_ids (active_of hyps) g.1 := by
        rw [← gcat_eq_entry _ hnd g hg, gcat_groups]
      simp only [decide_eq_true_eq, hgval, not_le]
      exact hless g.1
    have hne : active_of hyps ≠ [] := by
      rw [hsplit]
      exact List.cons_ne_nil _ _
    obtain ⟨htmem, htle, htall⟩ := top_by_likelihood_spec h₀ rest
    refine ⟨?_, ?_, ?_⟩
    · intro h hh
      rw [hsplit] at hh
      rcases List.mem_cons.mp hh with heq | hmem
      · rw [heq]
        exact htle
      · exact htall h hmem
    · intro hcond
      unfold detect_anchoring
      dsimp only
      rw [if_neg hne, hnone]
      dsimp only
      rw [if_neg (by simpa [stalled_ids] using Nat.not_le.mpr hst2), hsplit]
      dsimp only
      rw [if_pos hcond]
    · intro hcond
      unfold detect_anchoring
      dsimp only
      rw [if_neg hne, hnone]
      dsimp only
      rw [if_neg (by simpa [stalled_ids] using Nat.not_le.mpr hst2), hsplit]
      dsimp only
      rw [if_neg hcond]
  · intro h0
    unfold detect_anchoring
    dsimp only
    rw [if_pos h0]
  · decide

/-- Witness for C4: condition 1 at the concrete 4-"network" input. -/
theorem c4_anchoring_detection_order_witness :
    (detect_anchoring
      [{ hypothesis_id := "a", category := "network", status := .active },
       { hypothesis_id := "b", category := "network", status := .active },
       { hypothesis_id := "c", category := "network", status := .active },
       { hypothesis_id := "d", category := "network", status := .active }]
      5).1 = true :=
  ((c4_anchoring_detection_order _ 5).1 ⟨"network", by decide⟩).1

end HypothesisManager

namespace MemoryManager

theorem promote_to_warm_id (m : HierarchicalMemory) (llm : Option (Option String))
    (h : m.hot_memory.length ≤ HOT_TIER_SIZE) : promote_to_warm m llm = m := by
  unfold promote_to_warm
  rw [if_pos h]

theorem promote_to_warm_fields (m : HierarchicalMemory)
    (llm : Option (Option String)) (h : HOT_TIER_SIZE < m.hot_memory.length) :
    promote_to_warm m llm =
      { m with
          hot_memory := m.hot_memory.drop (m.hot_memory.length - HOT_TIER_SIZE)
          warm_snapshots := m.warm_snapshots ++
            [compress_iterations
              (m.hot_memory.take (m.hot_memory.length - HOT_TIER_SIZE)) llm
              warm_target_tokens] } := by
  unfold promote_to_warm
  rw [if_neg (not_le.mpr h)]

theorem demote_to_cold_fields (m : HierarchicalMemory) :
    (demote_to_cold m).hot_memory = m.hot_memory ∧
    (demote_to_cold m).warm_snapshots =
      m.warm_snapshots.drop (m.warm_snapshots.length - WARM_TIER_SIZE) := by
  unfold demote_to_cold
  split_ifs with h
  · exact ⟨rfl, by rw [Nat.sub_eq_zero_of_le h, List.drop_zero]⟩
  · exact ⟨rfl, rfl⟩

theorem prune_cold_memory_fields (m : HierarchicalMemory) :
    (prune_cold_memory m).hot_memory = m.hot_memory ∧
    (prune_cold_memory m).warm_snapshots = m.warm_snapshots := by
  unfold prune_cold_memory
  split_ifs <;> exact ⟨rfl, rfl⟩

theorem promote_to_warm_hot_len (m : HierarchicalMemory)
    (llm : Option (Option String)) :
    (promote_to_warm m llm).hot_memory.length =
      min m.hot_memory.length HOT_TIER_SIZE := by
  by_cases h : m.hot_memory.length ≤ HOT_TIER_SIZE
  · rw [promote_to_warm_id m llm h]
    omega
  · rw [promote_to_warm_fields m llm (not_le.mp h)]
    simp only [List.length_drop]
    omega

theorem demote_to_cold_hot (m : HierarchicalMemory) :
    (demote_to_cold m).hot_memory = m.hot_memory := by
  unfold demote_to_cold
  split_ifs <;> rfl

theorem demote_to_cold_warm (m : HierarchicalMemory) :
    (demote_to_cold m).warm_snapshots =
      m.warm_snapshots.drop (m.warm_snapshots.length - WARM_TIER_SIZE) := by
  unfold demote_to_cold
  split_ifs with h
  · rw [Nat.sub_eq_zero_of_le h, List.drop_zero]
  · rfl

theorem prune_cold_memory_hot (m : HierarchicalMemory) :
    (prune_cold_memory m).hot_memory = m.hot_memory := by
  unfold prune_cold_memory
  split_ifs <;> rfl

theorem prune_cold_memory_warm (m : HierarchicalMemory) :
    (prune_cold_memory m).warm_snapshots = m.warm_snapshots := by
  unfold prune_cold_memory
  split_ifs <;> rfl

theorem compress_memory_of_three (m : HierarchicalMemory)
    (llm : Option (Option String)) (h3 : m.hot_memory.length = 3) :
    (compress_memory m llm).hot_memory = m.hot_memory.drop 1 ∧
    ∃ pre, (compress_memory m llm).warm_snapshots =
      pre ++ [compress_iterations (m.hot_memory.take 1) llm warm_target_tokens] := by
  unfold compress_memory
  dsimp only
  rw [if_pos (show HOT_TIER_SIZE < m.hot_memory.length by
        rw [h3]; norm_num [HOT_TIER_SIZE]),
    promote_to_warm_fields m llm (by rw [h3]; norm_num [HOT_TIER_SIZE])]
  have hsub : m.hot_memory.length - HOT_TIER_SIZE = 1 := by
    rw [h3]; norm_num [HOT_TIER_SIZE]
  rw [hsub]
  split_ifs with hwarm hcold hcold
  · refine ⟨by rw [prune_cold_memory_hot, demote_to_cold_hot], ?_⟩
    rw [prune_cold_memory_warm, demote_to_cold_warm]
    dsimp only at hwarm ⊢
    rw [List.drop_append_of_le_length (by
      simp only [List.length_append, List.length_cons, List.length_nil,
        WARM_TIER_SIZE] at hwarm ⊢
      omega)]
    exact ⟨_, rfl⟩
  · refine ⟨by rw [demote_to_cold_hot], ?_⟩
    rw [demote_to_cold_warm]
    dsimp only at hwarm ⊢
    rw [List.drop_append_of_le_length (by
      simp only [List.length_append, List.length_cons, List.length_nil,
        WARM_TIER_SIZE] at hwarm ⊢
      omega)]
    exact ⟨_, rfl⟩
  · refine ⟨by rw [prune_cold_memory_hot], ?_⟩
    rw [prune_cold_memory_warm]
    exact ⟨_, rfl⟩
  · exact ⟨rfl, _, rfl⟩

theorem update_memory_false_of_full (m : HierarchicalMemory) (it : OODAIteration)
    (turn : Nat) (llm : Option (Option String))
    (h2 : m.hot_memory.length = HOT_TIER_SIZE) :
    update_memory m it turn false llm =
      { m with
          hot_memory := m.hot_memory.drop 1 ++ [it]
          warm_snapshots := m.warm_snapshots ++
            [compress_iterations (m.hot_memory.take 1) llm warm_target_tokens] } := by
  unfold update_memory
  simp only [Bool.false_eq_true, if_false]
  have hlen : (m.hot_memory ++ [it]).length = 3 := by
    simp [h2, HOT_TIER_SIZE]
  rw [if_pos (show HOT_TIER_SIZE < (m.hot_memory ++ [it]).length by
        rw [hlen]; norm_num [HOT_TIER_SIZE])]
  rw [promote_to_warm_fields _ llm (by rw [hlen]; norm_num [HOT_TIER_SIZE])]
  have hsub : (m.hot_memory ++ [it]).length - HOT_TIER_SIZE = 1 := by
    rw [hlen]
    norm_num [HOT_TIER_SIZE]
  have h1le : 1 ≤ m.hot_memory.length := by
    rw [h2]
    norm_num [HOT_TIER_SIZE]
  rw [hsub, List.drop_append_of_le_length h1le, List.take_append_of_le_length h1le]

end MemoryManager

namespace MemoryManager

theorem update_memory_hot_le (m : HierarchicalMemory) (it : OODAIteration)
    (turn : Nat) (sc : Bool) (llm : Option (Option String)) :
    (update_memory m it turn sc llm).hot_memory.length ≤ HOT_TIER_SIZE := by
  unfold update_memory
  dsimp only
  split_ifs with h1 h2 h3
  · rw [promote_to_warm_hot_len]
    omega
  · omega
  · rw [promote_to_warm_hot_len]
    omega
  · omega

theorem update_memory_of_full (m : HierarchicalMemory) (it : OODAIteration)
    (turn : Nat) (sc : Bool) (llm : Option (Option String))
    (h2 : m.hot_memory.length = HOT_TIER_SIZE) :
    (update_memory m it turn sc llm).hot_memory = m.hot_memory.drop 1 ++ [it] ∧
    ∃ pre, (update_memory m it turn sc llm).warm_snapshots =
      pre ++ [compress_iterations (m.hot_memory.take 1) llm warm_target_tokens] := by
  have h1le : 1 ≤ m.hot_memory.length := by
    rw [h2]
    norm_num [HOT_TIER_SIZE]
  cases sc with
  | false =>
      rw [update_memory_false_of_full m it turn llm h2]
      exact ⟨rfl, m.warm_snapshots, rfl⟩
  | true =>
      unfold update_memory
      simp only [if_true]
      have hlen : (m.hot_memory ++ [it]).length = 3 := by
        simp [h2, HOT_TIER_SIZE]
      obtain ⟨hch, hcw⟩ := compress_memory_of_three
        { m with hot_memory := m.hot_memory ++ [it] } llm (by simpa using hlen)
      have hch' : ({ compress_memory
          { m with hot_memory := m.hot_memory ++ [it] } llm with
            last_compression_turn := turn } : HierarchicalMemory).hot_memory =
          m.hot_memory.drop 1 ++ [it] := by
        show (compress_memory { m with hot_memory := m.hot_memory ++ [it] } llm).hot_memory = _
        rw [hch]
        exact List.drop_append_of_le_length h1le
      rw [if_neg (by
        rw [hch']
        simp only [List.length_append, List.length_drop, List.length_cons,
          List.length_nil, HOT_TIER_SIZE, h2]
        omega)]
      refine ⟨hch', ?_⟩
      obtain ⟨pre, hpre⟩ := hcw
      refine ⟨pre, ?_⟩
      show (compress_memory { m with hot_memory := m.hot_memory ++ [it] } llm).warm_snapshots = _
      rw [hpre, List.take_append_of_le_length h1le]

/-- A sequence of `update_memory` calls in which the periodic compression
predicate never fires (the spec's "appending … without triggering
prune"). -/
def apply_iterations (m : HierarchicalMemory) (its : List OODAIteration)
    (llm : Option (Option String)) : HierarchicalMemory :=
  its.foldl (fun mm i => update_memory mm i 0 false llm) m

theorem apply_iterations_spec (its : List OODAIteration)
    (m : HierarchicalMemory) (llm : Option (Option String))
    (h2 : m.hot_memory.length = HOT_TIER_SIZE) :
    (apply_iterations m its llm).hot_memory =
      (m.hot_memory ++ its).drop its.length ∧
    (apply_iterations m its llm).warm_snapshots =
      m.warm_snapshots ++ ((m.hot_memory ++ its).take its.length).map
        (fun i => compress_iterations [i] llm warm_target_tokens) := by
  induction its generalizing m with
  | nil => simp [apply_iterations]
  | cons i rest ih =>
      obtain ⟨a, tail, hm⟩ : ∃ a tail, m.hot_memory = a :: tail := by
        cases hmm : m.hot_memory with
        | nil => rw [hmm] at h2; simp [HOT_TIER_SIZE] at h2
        | cons a t => exact ⟨a, t, rfl⟩
      have hstep := update_memory_false_of_full m i 0 llm h2
      have h2' : (update_memory m i 0 false llm).hot_memory.length =
          HOT_TIER_SIZE := by
        rw [hstep]
        simp only [List.length_append, List.length_drop, List.length_cons,
          List.length_nil]
        rw [h2]
        norm_num [HOT_TIER_SIZE]
      have happly : apply_iterations m (i :: rest) llm =
          apply_iterations (update_memory m i 0 false llm) rest llm := rfl
      obtain ⟨ihh, ihw⟩ := ih (update_memory m i 0 false llm) h2'
      have hhot₁ : (update_memory m i 0 false llm).hot_memory = tail ++ [i] := by
        rw [hstep]
        simp [hm]
      have hwarm₁ : (update_memory m i 0 false llm).warm_snapshots =
          m.warm_snapshots ++
            [compress_iterations [a] llm warm_target_tokens] := by
        rw [hstep]
        simp [hm]
      constructor
      · rw [happly, ihh, hhot₁, hm]
        simp [List.append_assoc]
      · rw [happly, ihw, hhot₁, hwarm₁, hm]
        simp [List.append_assoc]

end MemoryManager

namespace MemoryManager

/-- C6 — Hot-tier capacity: after every `update_memory` call the hot tier
holds at most `HOT_TIER_SIZE` (2) iterations, whatever the external
compression predicate returned; when the append overflows a full hot tier
the oldest iteration is removed from the front and its compressed snapshot
becomes the newest entry of `warm_snapshots`; and over any sequence of
updates on a full hot tier (compression predicate false throughout, so no
prune fires) the overflow iterations appear, in order, as the newest
entries of the warm tier, one snapshot per overflow iteration. -/
theorem c6_hot_tier_capacity (m : HierarchicalMemory) (it : OODAIteration)
    (turn : Nat) (sc : Bool) (llm : Option (Option String))
    (its : List OODAIteration) :
    (update_memory m it turn sc llm).hot_memory.length ≤ HOT_TIER_SIZE ∧
    (m.hot_memory.length = HOT_TIER_SIZE →
      (update_memory m it turn sc llm).hot_memory =
        m.hot_memory.drop 1 ++ [it] ∧
      ∃ pre, (update_memory m it turn sc llm).warm_snapshots =
        pre ++ [compress_iterations (m.hot_memory.take 1) llm
          warm_target_tokens]) ∧
    (m.hot_memory.length = HOT_TIER_SIZE →
      (apply_iterations m its llm).hot_memory =
        (m.hot_memory ++ its).drop its.length ∧
      (apply_iterations m its llm).warm_snapshots =
        m.warm_snapshots ++ ((m.hot_memory ++ its).take its.length).map
          (fun i => compress_iterations [i] llm warm_target_tokens)) :=
  ⟨update_memory_hot_le m it turn sc llm,
   fun h2 => update_memory_of_full m it turn sc llm h2,
   fun h2 => apply_iterations_spec its m llm h2⟩

/-- Witness for C6 at a concrete full hot tier: the capacity bound holds
and the oldest iteration is dropped from the front. -/
theorem c6_hot_tier_capacity_witness :
    (update_memory
      { hot_memory := [{ iteration_number := 1 }, { iteration_number := 2 }] }
      { iteration_number := 3 } 3 true none).hot_memory.length ≤ HOT_TIER_SIZE ∧
    (update_memory
      { hot_memory := [{ iteration_number := 1 }, { iteration_number := 2 }] }
      { iteration_number := 3 } 3 true none).hot_memory =
      ([{ iteration_number := 1 }, { iteration_number := 2 }] :
        List OODAIteration).drop 1 ++ [{ iteration_number := 3 }] :=
  ⟨(c6_hot_tier_capacity
      { hot_memory := [{ iteration_number := 1 }, { iteration_number := 2 }] }
      { iteration_number := 3 } 3 true none []).1,
   ((c6_hot_tier_capacity
      { hot_memory := [{ iteration_number := 1 }, { iteration_number := 2 }] }
      { iteration_number := 3 } 3 true none []).2.1 (by rfl)).1⟩

/-- C7 — Summarizer fallback: a raised exception of the injected
summarizer (`some none` oracle) is caught inside the compression engine —
`compress_iterations` and `update_memory` return normally in this
embedding — and the produced snapshot's summary is exactly the
deterministic simple summary; with no summarizer injected (`none`) the
same string is used; the closed conjunct exhibits the fallback sentence
verbatim ("Iterations X-Y: N/M made progress." plus top-3 key facts). -/
theorem c7_summarizer_fallback (iterations : List OODAIteration)
    (target : Nat) (m : HierarchicalMemory) (it : OODAIteration)
    (turn : Nat) (sc : Bool) :
    (compress_iterations iterations (some none) target).summary =
      generate_simple_summary iterations (extract_key_facts iterations)
        (extract_decisions iterations) ∧
    (compress_iterations iterations none target).summary =
      generate_simple_summary iterations (extract_key_facts iterations)
        (extract_decisions iterations) ∧
    (m.hot_memory.length = HOT_TIER_SIZE →
      ∃ pre, (update_memory m it turn sc (some none)).warm_snapshots =
        pre ++ [compress_iterations (m.hot_memory.take 1) (some none)
          warm_target_tokens] ∧
        (compress_iterations (m.hot_memory.take 1) (some none)
          warm_target_tokens).summary =
          generate_simple_summary (m.hot_memory.take 1)
            (extract_key_facts (m.hot_memory.take 1))
            (extract_decisions (m.hot_memory.take 1))) ∧
    generate_simple_summary
      [{ iteration_number := 1, made_progress := true,
         new_insights := ["disk full"] },
       { iteration_number := 2, made_progress := true,
         new_insights := ["logs rotated"] }]
      (extract_key_facts
        [{ iteration_number := 1, made_progress := true,
           new_insights := ["disk full"] },
         { iteration_number := 2, made_progress := true,
           new_insights := ["logs rotated"] }])
      (extract_decisions
        [{ iteration_number := 1, made_progress := true,
           new_insights := ["disk full"] },
         { iteration_number := 2, made_progress := true,
           new_insights := ["logs rotated"] }]) =
      "Iterations 1-2: 2/2 made progress. Key findings: disk full; logs rotated" := by
  refine ⟨rfl, rfl, ?_, ?_⟩
  · intro h2
    obtain ⟨-, pre, hpre⟩ := update_memory_of_full m it turn sc (some none) h2
    exact ⟨pre, hpre, rfl⟩
  · decide

/-- Witness for C7: the failing-summarizer snapshot of a concrete
overflowing update carries the deterministic fallback summary. -/
theorem c7_summarizer_fallback_witness :
    ∃ pre, (update_memory
      { hot_memory := [{ iteration_number := 1 }, { iteration_number := 2 }] }
      { iteration_number := 3 } 9 false (some none)).warm_snapshots =
      pre ++ [compress_iterations
        (([{ iteration_number := 1 }, { iteration_number := 2 }] :
          List OODAIteration).take 1) (some none) warm_target_tokens] ∧
      (compress_iterations
        (([{ iteration_number := 1 }, { iteration_number := 2 }] :
          List OODAIteration).take 1) (some none) warm_target_tokens).summary =
        generate_simple_summary
          (([{ iteration_number := 1 }, { iteration_number := 2 }] :
            List OODAIteration).take 1)
          (extract_key_facts
            (([{ iteration_number := 1 }, { iteration_number := 2 }] :
              List OODAIteration).take 1))
          (extract_decisions
            (([{ iteration_number := 1 }, { iteration_number := 2 }] :
              List OODAIteration).take 1)) :=
  (c7_summarizer_fallback []
    100 { hot_memory := [{ iteration_number := 1 }, { iteration_number := 2 }] }
    { iteration_number := 3 } 9 false).2.2.1 (by rfl)

end MemoryManager

namespace MilestoneEngine

theorem check_degraded_mode_exit_cases (c : Case) (pm : Bool) :
    check_degraded_mode_exit c pm = c ∨
    check_degraded_mode_exit c pm =
      { c with degraded_mode := none, turns_without_progress := 0 } := by
  unfold check_degraded_mode_exit
  cases hdm : c.degraded_mode with
  | none => exact Or.inl rfl
  | some dm =>
      split_ifs with h
      · exact Or.inr rfl
      · exact Or.inl rfl

theorem check_automatic_transitions_cases (c : Case) :
    check_automatic_transitions c = c ∨
    (c.status = CaseStatus.investigating ∧ c.progress.solution_verified = true ∧
     check_automatic_transitions c =
       { c with status := .resolved, closure_reason := some "resolved" }) := by
  unfold check_automatic_transitions
  split_ifs with h
  · exact Or.inr ⟨h.1, h.2, rfl⟩
  · exact Or.inl rfl

theorem enter_degraded_mode_no_progress_cases (deps : Deps) (c : Case)
    (r : Option String) :
    (c.degraded_mode.isSome = true ∧
      enter_degraded_mode deps c DegradedModeType.no_progress r = c) ∨
    (c.degraded_mode = none ∧
      ∃ dm, dm.mode_type = DegradedModeType.no_progress ∧
        enter_degraded_mode deps c DegradedModeType.no_progress r =
          { c with degraded_mode := some dm }) := by
  unfold enter_degraded_mode
  split_ifs with h h2
  · exact Or.inl ⟨h, rfl⟩
  · right
    refine ⟨Option.not_isSome_iff_eq_none.mp h, ?_⟩
    unfold apply_degraded_mode_recovery
    dsimp only
    cases hst : deps.current_stage c.progress with
    | problem_verification => exact ⟨_, rfl, rfl⟩
    | investigation => exact ⟨_, rfl, rfl⟩
    | other_stage => exact ⟨_, rfl, rfl⟩
  · exact absurd rfl h2

/-- C5: a CONSULTING case with a non-empty proposed problem statement and
no decision yet: a first turn whose user message carries an affirmative
signal (and no investigation signal) keeps the case CONSULTING and sets
`problem_statement_confirmed`; a second turn whose message carries an
investigation signal sets `decided_to_investigate` and the same turn
transitions the case to INVESTIGATING, sets the description to the
proposed statement, resets `progress` to the fresh all-false milestone
set and initializes the problem-verification scaffolding from the
description. -/
theorem c5_consulting_to_investigating (deps : Deps) (c : Case)
    (s m1 r1 m2 r2 : String)
    (hst : c.status = CaseStatus.consulting)
    (hp : c.consulting.proposed_problem_statement = some s)
    (hs : ¬ s = "")
    (hd : c.consulting.decided_to_investigate = false)
    (haff : (py_contains m1 "yes" || py_contains m1 "correct") = true)
    (hni : py_contains m1 "investigate" = false)
    (hng : py_contains m1 "go ahead" = false)
    (hinv : (py_contains m2 "investigate" || py_contains m2 "go ahead") = true) :
    ∃ c₁ md₁ c₂ md₂,
      process_turn deps c m1 r1 [] = (c₁, md₁) ∧
      process_turn deps c₁ m2 r2 [] = (c₂, md₂) ∧
      c₁.status = CaseStatus.consulting ∧
      c₁.consulting.problem_statement_confirmed = true ∧
      md₂.status_transitioned = true ∧
      c₂.status = CaseStatus.investigating ∧
      c₂.consulting.decided_to_investigate = true ∧
      c₂.description = s ∧
      c₂.progress = ({} : InvestigationProgress) ∧
      c₂.problem_verification = ({ symptom_statement := s } : ProblemVerification) := by
  obtain ⟨cid, uid, title, desc, st, ct, twp, cons, prog, pv, ps, dm, th, uf, ev, hy, so, cr⟩ := c
  obtain ⟨prop, conf, dec⟩ := cons
  dsimp only at hst hp hd
  subst hst hp hd
  have hty : py_truthy (some s) = true := by simp [py_truthy, hs]
  refine ⟨_, _, _, _, rfl, rfl, ?_⟩
  cases dm <;>
    simp [process_turn, process_response, transition_to_investigating,
      check_automatic_transitions, check_degraded_mode_exit, haff, hni, hng,
      hty, hinv]

/-- Witness for C5: the concrete two-turn scenario of the spec
("Yes, that is correct", then "go ahead and investigate") on a fresh
CONSULTING case whose proposed problem statement is "DB latency spikes". -/
theorem c5_consulting_to_investigating_witness :
    ∃ c₁ md₁ c₂ md₂,
      process_turn
        { determine_path := fun _ =>
            { path := "", auto_selected := false, rationale := "" }
          current_stage := fun _ => InvestigationStage.other_stage }
        { consulting := { proposed_problem_statement := some "DB latency spikes" } }
        "Yes, that is correct" "ok" [] = (c₁, md₁) ∧
      process_turn
        { determine_path := fun _ =>
            { path := "", auto_selected := false, rationale := "" }
          current_stage := fun _ => InvestigationStage.other_stage }
        c₁ "go ahead and investigate" "ok" [] = (c₂, md₂) ∧
      c₁.status = CaseStatus.consulting ∧
      c₁.consulting.problem_statement_confirmed = true ∧
      md₂.status_transitioned = true ∧
      c₂.status = CaseStatus.investigating ∧
      c₂.consulting.decided_to_investigate = true ∧
      c₂.description = "DB latency spikes" ∧
      c₂.progress = ({} : InvestigationProgress) ∧
      c₂.problem_verification =
        ({ symptom_statement := "DB latency spikes" } : ProblemVerification) :=
  c5_consulting_to_investigating
    { determine_path := fun _ =>
        { path := "", auto_selected := false, rationale := "" }
      current_stage := fun _ => InvestigationStage.other_stage }
    { consulting := { proposed_problem_statement := some "DB latency spikes" } }
    "DB latency spikes" "Yes, that is correct" "ok" "go ahead and investigate" "ok"
    rfl rfl (by decide) rfl (by decide) (by decide) (by decide) (by decide)

/-- Counterexample to C8 as stated: a RESOLVED case with two turns
without progress is mutated by `process_turn` beyond turn-history logging
and the turn counter — the no-progress counter reaches 3 and the turn
enters degraded mode (`degraded_mode` goes from `none` to a NO_PROGRESS
record), because the degraded-mode entry check does not test the case
status. -/
theorem c8_counterexample :
    ({ status := CaseStatus.resolved, turns_without_progress := 2 } :
        Case).degraded_mode = none ∧
    (process_turn
      { determine_path := fun _ =>
          { path := "", auto_selected := false, rationale := "" }
        current_stage := fun _ => InvestigationStage.other_stage }
      { status := CaseStatus.resolved, turns_without_progress := 2 }
      "status check" "no further action" []).1.degraded_mode =
      some { mode_type := DegradedModeType.no_progress
             reason := "No progress for 3 consecutive turns"
             attempted_actions := [] } :=
  ⟨rfl, rfl⟩

set_option maxHeartbeats 1000000 in
/-- C8 (amended): for a RESOLVED or CLOSED case, `process_turn` leaves
the status, description, consulting data, progress milestones,
problem verification, path selection, uploaded files, evidence,
hypotheses, solutions and closure reason unchanged, increments the turn
counter, appends one turn record — but it also increments the
no-progress counter, and when that counter reaches 3 on a case not yet
in degraded mode it enters NO_PROGRESS degraded mode; otherwise the
degraded mode is unchanged. -/
theorem c8_terminal_status_frame (deps : Deps) (c : Case) (um lr : String)
    (atts : List Attachment)
    (hterm : c.status = CaseStatus.resolved ∨ c.status = CaseStatus.closed) :
    (process_turn deps c um lr atts).1.case_id = c.case_id ∧
    (process_turn deps c um lr atts).1.user_id = c.user_id ∧
    (process_turn deps c um lr atts).1.title = c.title ∧
    (process_turn deps c um lr atts).1.description = c.description ∧
    (process_turn deps c um lr atts).1.status = c.status ∧
    (process_turn deps c um lr atts).1.consulting = c.consulting ∧
    (process_turn deps c um lr atts).1.progress = c.progress ∧
    (process_turn deps c um lr atts).1.problem_verification = c.problem_verification ∧
    (process_turn deps c um lr atts).1.path_selection = c.path_selection ∧
    (process_turn deps c um lr atts).1.uploaded_files = c.uploaded_files ∧
    (process_turn deps c um lr atts).1.evidence = c.evidence ∧
    (process_turn deps c um lr atts).1.hypotheses = c.hypotheses ∧
    (process_turn deps c um lr atts).1.solutions = c.solutions ∧
    (process_turn deps c um lr atts).1.closure_reason = c.closure_reason ∧
    (process_turn deps c um lr atts).1.current_turn = c.current_turn + 1 ∧
    (process_turn deps c um lr atts).1.turns_without_progress =
      c.turns_without_progress + 1 ∧
    (∃ rec, (process_turn deps c um lr atts).1.turn_history =
      c.turn_history ++ [rec]) ∧
    (if 3 ≤ c.turns_without_progress + 1 ∧ c.degraded_mode = none then
      ∃ dm, (process_turn deps c um lr atts).1.degraded_mode = some dm ∧
        dm.mode_type = DegradedModeType.no_progress
    else (process_turn deps c um lr atts).1.degraded_mode = c.degraded_mode) := by
  obtain ⟨cid, uid, title, desc, st, ct, twp, cons, prog, pv, ps, dm, th, uf, ev, hy, so, cr⟩ := c
  dsimp only at hterm ⊢
  rcases hterm with h | h <;> subst h <;>
  · by_cases hc : 2 ≤ twp ∧ dm = none
    · obtain ⟨h3, hdm⟩ := hc
      subst hdm
      cases hstage : deps.current_stage prog <;>
        simp [process_turn, process_response, check_automatic_transitions,
          check_degraded_mode_exit, enter_degraded_mode,
          apply_degraded_mode_recovery, h3, hstage]
    · simp [process_turn, process_response, check_automatic_transitions,
        check_degraded_mode_exit, enter_degraded_mode,
        apply_degraded_mode_recovery, hc]

/-- Witness for the amended C8 at a fresh CLOSED case. -/
theorem c8_terminal_status_frame_witness :
    (process_turn
      { determine_path := fun _ =>
          { path := "", auto_selected := false, rationale := "" }
        current_stage := fun _ => InvestigationStage.other_stage }
      { status := CaseStatus.closed } "hello" "case is closed" []).1.status =
        ({ status := CaseStatus.closed } : Case).status ∧
    (process_turn
      { determine_path := fun _ =>
          { path := "", auto_selected := false, rationale := "" }
        current_stage := fun _ => InvestigationStage.other_stage }
      { status := CaseStatus.closed } "hello" "case is closed" []).1.progress =
        ({ status := CaseStatus.closed } : Case).progress ∧
    (process_turn
      { determine_path := fun _ =>
          { path := "", auto_selected := false, rationale := "" }
        current_stage := fun _ => InvestigationStage.other_stage }
      { status := CaseStatus.closed } "hello" "case is closed" []).1.current_turn =
        ({ status := CaseStatus.closed } : Case).current_turn + 1 ∧
    (process_turn
      { determine_path := fun _ =>
          { path := "", auto_selected := false, rationale := "" }
        current_stage := fun _ => InvestigationStage.other_stage }
      { status := CaseStatus.closed } "hello" "case is closed" []).1.degraded_mode =
        ({ status := CaseStatus.closed } : Case).degraded_mode := by
  obtain ⟨-, -, -, -, h1, -, h2, -, -, -, -, -, -, -, h3, -, -, h4⟩ :=
    c8_terminal_status_frame
      { determine_path := fun _ =>
          { path := "", auto_selected := false, rationale := "" }
        current_stage := fun _ => InvestigationStage.other_stage }
      { status := CaseStatus.closed } "hello" "case is closed" [] (Or.inr rfl)
  refine ⟨h1, h2, h3, ?_⟩
  simpa using h4

end MilestoneEngine

namespace MilestoneEngine

/-- Pointwise ordering on the eight boolean milestone flags of
`InvestigationProgress`: every flag set in the left progress is set in
the right one. -/
def milestone_le (p q : InvestigationProgress) : Prop :=
  (p.symptom_verified = true → q.symptom_verified = true) ∧
  (p.scope_assessed = true → q.scope_assessed = true) ∧
  (p.timeline_established = true → q.timeline_established = true) ∧
  (p.changes_identified = true → q.changes_identified = true) ∧
  (p.root_cause_identified = true → q.root_cause_identified = true) ∧
  (p.solution_proposed = true → q.solution_proposed = true) ∧
  (p.solution_applied = true → q.solution_applied = true) ∧
  (p.solution_verified = true → q.solution_verified = true)

instance (p q : InvestigationProgress) : Decidable (milestone_le p q) := by
  unfold milestone_le
  infer_instance

theorem milestone_le_refl (p : InvestigationProgress) : milestone_le p p :=
  ⟨id, id, id, id, id, id, id, id⟩

theorem milestone_le_of_eq {p q : InvestigationProgress} (h : p = q) :
    milestone_le p q := h ▸ milestone_le_refl p

theorem milestone_le_trans {p q r : InvestigationProgress}
    (h₁ : milestone_le p q) (h₂ : milestone_le q r) : milestone_le p r :=
  ⟨fun h => h₂.1 (h₁.1 h), fun h => h₂.2.1 (h₁.2.1 h),
   fun h => h₂.2.2.1 (h₁.2.2.1 h), fun h => h₂.2.2.2.1 (h₁.2.2.2.1 h),
   fun h => h₂.2.2.2.2.1 (h₁.2.2.2.2.1 h),
   fun h => h₂.2.2.2.2.2.1 (h₁.2.2.2.2.2.1 h),
   fun h => h₂.2.2.2.2.2.2.1 (h₁.2.2.2.2.2.2.1 h),
   fun h => h₂.2.2.2.2.2.2.2 (h₁.2.2.2.2.2.2.2 h)⟩

theorem amu_symptom_verified_frame (c : Case) (u : MilestoneUpdate) :
    (amu_symptom_verified c u).1.status = c.status ∧
    milestone_le c.progress (amu_symptom_verified c u).1.progress := by
  unfold amu_symptom_verified
  split_ifs <;> exact ⟨rfl, by simp [milestone_le]⟩

theorem amu_scope_assessed_frame (c : Case) (u : MilestoneUpdate) :
    (amu_scope_assessed c u).1.status = c.status ∧
    milestone_le c.progress (amu_scope_assessed c u).1.progress := by
  unfold amu_scope_assessed
  split_ifs <;> exact ⟨rfl, by simp [milestone_le]⟩

theorem amu_timeline_established_frame (c : Case) (u : MilestoneUpdate) :
    (amu_timeline_established c u).1.status = c.status ∧
    milestone_le c.progress (amu_timeline_established c u).1.progress := by
  unfold amu_timeline_established
  split_ifs <;> exact ⟨rfl, by simp [milestone_le]⟩

theorem amu_changes_identified_frame (c : Case) (u : MilestoneUpdate) :
    (amu_changes_identified c u).1.status = c.status ∧
    milestone_le c.progress (amu_changes_identified c u).1.progress := by
  unfold amu_changes_identified
  split_ifs <;> exact ⟨rfl, by simp [milestone_le]⟩

theorem amu_root_cause_identified_frame (c : Case) (u : MilestoneUpdate) :
    (amu_root_cause_identified c u).1.status = c.status ∧
    milestone_le c.progress (amu_root_cause_identified c u).1.progress := by
  unfold amu_root_cause_identified
  split_ifs <;> exact ⟨rfl, by simp [milestone_le]⟩

theorem amu_solution_proposed_frame (c : Case) (u : MilestoneUpdate) :
    (amu_solution_proposed c u).1.status = c.status ∧
    milestone_le c.progress (amu_solution_proposed c u).1.progress := by
  unfold amu_solution_proposed
  split_ifs <;>
    first
      | exact ⟨rfl, milestone_le_refl _⟩
      | (cases u.details.solution_description <;> exact ⟨rfl, by simp [milestone_le]⟩)

theorem amu_solution_applied_frame (c : Case) (u : MilestoneUpdate) :
    (amu_solution_applied c u).1.status = c.status ∧
    milestone_le c.progress (amu_solution_applied c u).1.progress := by
  unfold amu_solution_applied
  split_ifs <;> exact ⟨rfl, by simp [milestone_le]⟩

theorem amu_solution_verified_frame (c : Case) (u : MilestoneUpdate) :
    (amu_solution_verified c u).1.status = c.status ∧
    milestone_le c.progress (amu_solution_verified c u).1.progress := by
  unfold amu_solution_verified
  split_ifs <;> exact ⟨rfl, by simp [milestone_le]⟩

theorem apply_milestone_update_frame (c : Case) (u : MilestoneUpdate) :
    (apply_milestone_update c u).1.status = c.status ∧
    milestone_le c.progress (apply_milestone_update c u).1.progress := by
  unfold apply_milestone_update
  split_ifs <;>
    first
      | exact ⟨rfl, milestone_le_refl _⟩
      | exact amu_symptom_verified_frame c u
      | exact amu_scope_assessed_frame c u
      | exact amu_timeline_established_frame c u
      | exact amu_changes_identified_frame c u
      | exact amu_root_cause_identified_frame c u
      | exact amu_solution_proposed_frame c u
      | exact amu_solution_applied_frame c u
      | exact amu_solution_verified_frame c u

end MilestoneEngine

namespace MilestoneEngine

theorem milestone_fold_frame (us : List MilestoneUpdate) (c : Case)
    (ms : List String) :
    (us.foldl milestone_fold_step (c, ms)).1.status = c.status ∧
    milestone_le c.progress (us.foldl milestone_fold_step (c, ms)).1.progress := by
  induction us generalizing c ms with
  | nil => exact ⟨rfl, milestone_le_refl _⟩
  | cons u us ih =>
    simp only [List.foldl_cons, milestone_fold_step]
    exact ⟨(ih _ _).1.trans (apply_milestone_update_frame c u).1,
      milestone_le_trans (apply_milestone_update_frame c u).2 (ih _ _).2⟩

theorem process_milestone_updates_frame (deps : Deps) (c : Case)
    (us : List MilestoneUpdate) :
    (process_milestone_updates deps c us).1.status = c.status ∧
    milestone_le c.progress (process_milestone_updates deps c us).1.progress := by
  obtain ⟨hs, hm⟩ := milestone_fold_frame us c []
  unfold process_milestone_updates
  dsimp only
  split_ifs <;>
    exact ⟨hs, milestone_le_trans hm (by simp [milestone_le])⟩

theorem process_evidence_analysis_frame (c : Case) (args : EvidenceAnalysisArgs) :
    (process_evidence_analysis c args).1.status = c.status ∧
    (process_evidence_analysis c args).1.progress = c.progress := by
  unfold process_evidence_analysis
  rcases h : c.evidence.findIdx? (fun ev => some ev.evidence_id = args.evidence_id)
    with _ | idx <;> simp [h]

theorem process_hypothesis_generation_frame (c : Case)
    (args : HypothesisGenerationArgs) :
    (process_hypothesis_generation c args).1.status = c.status ∧
    (process_hypothesis_generation c args).1.progress = c.progress := by
  unfold process_hypothesis_generation
  split_ifs <;> exact ⟨rfl, rfl⟩

theorem process_hypothesis_evaluation_frame (c : Case)
    (args : HypothesisEvaluationArgs) :
    (process_hypothesis_evaluation c args).1.status = c.status ∧
    milestone_le c.progress (process_hypothesis_evaluation c args).1.progress := by
  unfold process_hypothesis_evaluation
  rcases h : c.hypotheses.find? (fun p => some p.1 = args.hypothesis_id)
    with _ | ⟨key, hyp⟩ <;> rw [h]
  · exact ⟨rfl, milestone_le_refl _⟩
  · dsimp only
    split_ifs <;> exact ⟨rfl, by simp [milestone_le]⟩

end MilestoneEngine

namespace MilestoneEngine

theorem keyword_fallback_frame (c : Case) (lr : String) :
    (keyword_fallback c lr).1.status = c.status ∧
    milestone_le c.progress (keyword_fallback c lr).1.progress := by
  unfold keyword_fallback
  dsimp only
  split_ifs <;>
    exact ⟨rfl, by simp [milestone_le]⟩

theorem invest_attach_fold_frame (atts : List Attachment) (c : Case)
    (ids : List String) :
    (atts.foldl invest_attach_step (c, ids)).1.status = c.status ∧
    (atts.foldl invest_attach_step (c, ids)).1.progress = c.progress := by
  induction atts generalizing c ids with
  | nil => exact ⟨rfl, rfl⟩
  | cons a as ih =>
    simp only [List.foldl_cons, invest_attach_step]
    exact ⟨(ih _ _).1, (ih _ _).2⟩

theorem apply_tool_call_frame (deps : Deps) (acc : ToolCallAcc) (tc : ToolCall) :
    (apply_tool_call deps acc tc).case.status = acc.case.status ∧
    milestone_le acc.case.progress (apply_tool_call deps acc tc).case.progress := by
  cases tc with
  | update_milestones us => exact process_milestone_updates_frame deps acc.case us
  | analyze_evidence args =>
      exact ⟨(process_evidence_analysis_frame acc.case args).1,
        milestone_le_of_eq (process_evidence_analysis_frame acc.case args).2.symm⟩
  | generate_hypothesis args =>
      exact ⟨(process_hypothesis_generation_frame acc.case args).1,
        milestone_le_of_eq (process_hypothesis_generation_frame acc.case args).2.symm⟩
  | evaluate_hypothesis args =>
      exact process_hypothesis_evaluation_frame acc.case args

theorem tool_call_fold_frame (deps : Deps) (tcs : List ToolCall)
    (acc : ToolCallAcc) :
    (tcs.foldl (apply_tool_call deps) acc).case.status = acc.case.status ∧
    milestone_le acc.case.progress
      (tcs.foldl (apply_tool_call deps) acc).case.progress := by
  induction tcs generalizing acc with
  | nil => exact ⟨rfl, milestone_le_refl _⟩
  | cons t ts ih =>
    simp only [List.foldl_cons]
    exact ⟨(ih _).1.trans (apply_tool_call_frame deps acc t).1,
      milestone_le_trans (apply_tool_call_frame deps acc t).2 (ih _).2⟩

end MilestoneEngine

namespace MilestoneEngine

theorem process_response_frame (deps : Deps) (c : Case)
    (um lr : String) (tcs : Option (List ToolCall)) (atts : List Attachment)
    (hst : c.status ≠ CaseStatus.consulting) :
    (process_response deps c um lr tcs atts).1.status = c.status ∧
    milestone_le c.progress (process_response deps c um lr tcs atts).1.progress := by
  unfold process_response
  cases hcs : c.status with
  | consulting => exact absurd hcs hst
  | resolved => exact ⟨hcs, milestone_le_refl _⟩
  | closed => exact ⟨hcs, milestone_le_refl _⟩
  | investigating =>
    dsimp only
    have hce := invest_attach_fold_frame atts c []
    rcases tcs with _ | ⟨_ | ⟨t, ts⟩⟩
    · dsimp only
      refine ⟨?_, ?_⟩
      · exact ((keyword_fallback_frame _ lr).1.trans hce.1).trans hcs
      · exact milestone_le_trans (milestone_le_of_eq hce.2.symm)
          (keyword_fallback_frame _ lr).2
    · dsimp only
      refine ⟨?_, ?_⟩
      · exact ((keyword_fallback_frame _ lr).1.trans hce.1).trans hcs
      · exact milestone_le_trans (milestone_le_of_eq hce.2.symm)
          (keyword_fallback_frame _ lr).2
    · simp only [Option.getD, Bool.not_true, Bool.false_eq_true,
        eq_self_iff_true, if_true, if_false]
      refine ⟨?_, ?_⟩
      · exact ((tool_call_fold_frame deps (t :: ts)
          { case := (atts.foldl invest_attach_step (c, [])).1
            evidence_added := (atts.foldl invest_attach_step (c, [])).2 }).1.trans
            hce.1).trans hcs
      · exact milestone_le_trans (milestone_le_of_eq hce.2.symm)
          (tool_call_fold_frame deps (t :: ts)
            { case := (atts.foldl invest_attach_step (c, [])).1
              evidence_added := (atts.foldl invest_attach_step (c, [])).2 }).2

end MilestoneEngine

namespace MilestoneEngine

theorem check_degraded_mode_exit_frame (c : Case) (b : Bool) :
    (check_degraded_mode_exit c b).status = c.status ∧
    (check_degraded_mode_exit c b).progress = c.progress := by
  unfold check_degraded_mode_exit
  rcases h : c.degraded_mode with _ | d
  · exact ⟨rfl, rfl⟩
  · split_ifs <;> exact ⟨rfl, rfl⟩

theorem apply_degraded_mode_recovery_frame (deps : Deps) (c : Case) :
    (apply_degraded_mode_recovery deps c).status = c.status ∧
    (apply_degraded_mode_recovery deps c).progress = c.progress := by
  unfold apply_degraded_mode_recovery
  rcases h : c.degraded_mode with _ | d
  · exact ⟨rfl, rfl⟩
  · obtain ⟨mt, rsn, aa⟩ := d
    cases mt <;> dsimp only
    · cases deps.current_stage c.progress <;> exact ⟨rfl, rfl⟩
    · exact ⟨rfl, rfl⟩
    · exact ⟨rfl, rfl⟩
    · exact ⟨rfl, rfl⟩

theorem enter_degraded_mode_frame (deps : Deps) (c : Case)
    (mt : DegradedModeType) (r : Option String) :
    (enter_degraded_mode deps c mt r).status = c.status ∧
    (enter_degraded_mode deps c mt r).progress = c.progress := by
  unfold enter_degraded_mode
  split_ifs with h h2 <;>
    first
      | exact ⟨rfl, rfl⟩
      | exact ⟨(apply_degraded_mode_recovery_frame deps _).1,
          (apply_degraded_mode_recovery_frame deps _).2⟩

theorem check_automatic_transitions_frame (c : Case) :
    ((check_automatic_transitions c).status = c.status ∨
      (check_automatic_transitions c).status = CaseStatus.resolved) ∧
    (check_automatic_transitions c).progress = c.progress := by
  unfold check_automatic_transitions
  split_ifs <;> first
    | exact ⟨Or.inr rfl, rfl⟩
    | exact ⟨Or.inl rfl, rfl⟩

end MilestoneEngine

namespace MilestoneEngine

theorem process_turn_frame (deps : Deps) (c : Case) (um lr : String)
    (atts : List Attachment) (hst : c.status ≠ CaseStatus.consulting) :
    ((process_turn deps c um lr atts).1.status = c.status ∨
      (process_turn deps c um lr atts).1.status = CaseStatus.resolved) ∧
    milestone_le c.progress (process_turn deps c um lr atts).1.progress := by
  obtain ⟨hs, hm⟩ := process_response_frame deps c um lr none atts hst
  unfold process_turn
  dsimp only
  split_ifs with h1 h2
  · constructor
    · rcases (check_automatic_transitions_frame _).1 with h | h
      · exact Or.inl (h.trans ((check_degraded_mode_exit_frame _ _).1.trans hs))
      · exact Or.inr h
    · rw [(check_automatic_transitions_frame _).2,
        (check_degraded_mode_exit_frame _ _).2]
      exact hm
  · constructor
    · rcases (check_automatic_transitions_frame _).1 with h | h
      · exact Or.inl (h.trans ((enter_degraded_mode_frame _ _ _ _).1.trans hs))
      · exact Or.inr h
    · rw [(check_automatic_transitions_frame _).2,
        (enter_degraded_mode_frame _ _ _ _).2]
      exact hm
  · constructor
    · rcases (check_automatic_transitions_frame _).1 with h | h
      · exact Or.inl (h.trans hs)
      · exact Or.inr h
    · rw [(check_automatic_transitions_frame _).2]
      exact hm

end MilestoneEngine

namespace MilestoneEngine

/-- One turn of conversation as fed to the engine: the user message, the
LLM response, the parsed structured tool calls (if any) and the uploaded
attachments. -/
structure TurnInput where
  user_message : String := ""
  llm_response : String := ""
  tool_calls : Option (List ToolCall) := none
  attachments : List Attachment := []

/-- The case after one `_process_response` turn update. -/
def apply_response (deps : Deps) (c : Case) (t : TurnInput) : Case :=
  (process_response deps c t.user_message t.llm_response t.tool_calls
    t.attachments).1

/-- The case after a sequence of `_process_response` turn updates. -/
def apply_responses (deps : Deps) (c : Case) (ts : List TurnInput) : Case :=
  ts.foldl (apply_response deps) c

/-- The case after one full `process_turn`. -/
def apply_turn (deps : Deps) (c : Case) (t : TurnInput) : Case :=
  (process_turn deps c t.user_message t.llm_response t.attachments).1

/-- The case after a sequence of full `process_turn` calls. -/
def apply_turns (deps : Deps) (c : Case) (ts : List TurnInput) : Case :=
  ts.foldl (apply_turn deps) c

theorem apply_responses_frame (deps : Deps) (ts : List TurnInput) (c : Case)
    (hst : c.status ≠ CaseStatus.consulting) :
    (apply_responses deps c ts).status ≠ CaseStatus.consulting ∧
    milestone_le c.progress (apply_responses deps c ts).progress := by
  induction ts generalizing c with
  | nil => exact ⟨hst, milestone_le_refl _⟩
  | cons t ts ih =>
    have hf := process_response_frame deps c t.user_message t.llm_response
      t.tool_calls t.attachments hst
    have hst' : (apply_response deps c t).status ≠ CaseStatus.consulting :=
      fun hh => hst (hf.1.symm.trans hh)
    obtain ⟨h1, h2⟩ := ih (apply_response deps c t) hst'
    exact ⟨h1, milestone_le_trans hf.2 h2⟩

theorem apply_turns_frame (deps : Deps) (ts : List TurnInput) (c : Case)
    (hst : c.status ≠ CaseStatus.consulting) :
    (apply_turns deps c ts).status ≠ CaseStatus.consulting ∧
    milestone_le c.progress (apply_turns deps c ts).progress := by
  induction ts generalizing c with
  | nil => exact ⟨hst, milestone_le_refl _⟩
  | cons t ts ih =>
    have hf := process_turn_frame deps c t.user_message t.llm_response
      t.attachments hst
    have hst' : (apply_turn deps c t).status ≠ CaseStatus.consulting := by
      rcases hf.1 with h | h
      · exact fun hh => hst (h.symm.trans hh)
      · exact fun hh => CaseStatus.noConfusion (h.symm.trans hh)
    obtain ⟨h1, h2⟩ := ih (apply_turn deps c t) hst'
    exact ⟨h1, milestone_le_trans hf.2 h2⟩

end MilestoneEngine

namespace MilestoneEngine

/-- C1: milestone monotonicity.  For any case whose investigation has
started (status no longer CONSULTING) and any sequence of turn updates
— through `_process_response` with arbitrary structured tool calls, and
through full `process_turn` calls — the status never returns to
CONSULTING and each of the eight boolean milestone flags of
`InvestigationProgress`, once true, stays true: every milestone-setting
path checks that the flag is false before setting it and no path after
the investigation started clears one. -/
theorem c1_milestone_monotonicity (deps : Deps) (c : Case)
    (ts : List TurnInput) (hst : c.status ≠ CaseStatus.consulting) :
    ((apply_responses deps c ts).status ≠ CaseStatus.consulting ∧
      milestone_le c.progress (apply_responses deps c ts).progress) ∧
    ((apply_turns deps c ts).status ≠ CaseStatus.consulting ∧
      milestone_le c.progress (apply_turns deps c ts).progress) :=
  ⟨apply_responses_frame deps ts c hst, apply_turns_frame deps ts c hst⟩

/-- Witness for C1: an INVESTIGATING case with `symptom_verified` already
set, run through a structured scope-assessment tool call and a keyword
root-cause turn. -/
theorem c1_milestone_monotonicity_witness :
    ((apply_responses
        { determine_path := fun _ =>
            { path := "", auto_selected := false, rationale := "" }
          current_stage := fun _ => InvestigationStage.other_stage }
        { status := CaseStatus.investigating
          progress := { symptom_verified := true } }
        [{ llm_response := "scope recorded"
           tool_calls := some [ToolCall.update_milestones
             [{ milestone := "scope_assessed", completed := true }]] },
         { llm_response := "the root cause is the failing disk" }]).status ≠
      CaseStatus.consulting ∧
      milestone_le
        ({ status := CaseStatus.investigating
           progress := { symptom_verified := true } } : Case).progress
        (apply_responses
          { determine_path := fun _ =>
              { path := "", auto_selected := false, rationale := "" }
            current_stage := fun _ => InvestigationStage.other_stage }
          { status := CaseStatus.investigating
            progress := { symptom_verified := true } }
          [{ llm_response := "scope recorded"
             tool_calls := some [ToolCall.update_milestones
               [{ milestone := "scope_assessed", completed := true }]] },
           { llm_response := "the root cause is the failing disk" }]).progress) ∧
    ((apply_turns
        { determine_path := fun _ =>
            { path := "", auto_selected := false, rationale := "" }
          current_stage := fun _ => InvestigationStage.other_stage }
        { status := CaseStatus.investigating
          progress := { symptom_verified := true } }
        [{ llm_response := "scope recorded"
           tool_calls := some [ToolCall.update_milestones
             [{ milestone := "scope_assessed", completed := true }]] },
         { llm_response := "the root cause is the failing disk" }]).status ≠
      CaseStatus.consulting ∧
      milestone_le
        ({ status := CaseStatus.investigating
           progress := { symptom_verified := true } } : Case).progress
        (apply_turns
          { determine_path := fun _ =>
              { path := "", auto_selected := false, rationale := "" }
            current_stage := fun _ => InvestigationStage.other_stage }
          { status := CaseStatus.investigating
            progress := { symptom_verified := true } }
          [{ llm_response := "scope recorded"
             tool_calls := some [ToolCall.update_milestones
               [{ milestone := "scope_assessed", completed := true }]] },
           { llm_response := "the root cause is the failing disk" }]).progress) :=
  c1_milestone_monotonicity
    { determine_path := fun _ =>
        { path := "", auto_selected := false, rationale := "" }
      current_stage := fun _ => InvestigationStage.other_stage }
    { status := CaseStatus.investigating
      progress := { symptom_verified := true } }
    [{ llm_response := "scope recorded"
       tool_calls := some [ToolCall.update_milestones
         [{ milestone := "scope_assessed", completed := true }]] },
     { llm_response := "the root cause is the failing disk" }]
    (by decide)

end MilestoneEngine
